import Mathlib

/-!
Shallow embedding of the payment lifecycle engine of ms-go-payments.

Machine integers (`int32`, `int64`) are modelled as `Int`; overflow never
occurs at the small values the service manipulates.  Go `time.Time` and
`time.Duration` are both modelled as `Int` (nanoseconds); `time.Now()` is
passed in as an explicit `now` parameter.  Go strings are modelled as Lean
`String`; `len`/slicing in `truncate` is byte-level in Go and character-level
here, which coincide on the ASCII data the service produces.  Nullable
pointers become `Option`.  The repositories are embedded with their in-memory
contract semantics (unique-key insert, update-by-id, find-first); I/O errors
of the storage engine are outside the embedding.
-/

namespace Payments

/-- Payment status codes (types.PaymentStatus). -/
def statusCreated : Int := 1

def statusPending : Int := 2

def statusProcessing : Int := 3

def statusPaid : Int := 10

def statusFailed : Int := 20

def statusCanceled : Int := 30

def statusExpired : Int := 40

/-- Callback delivery status codes (entity package constants). -/
def callbackDeliveryNone : Int := 0

def callbackDeliveryPending : Int := 1

def callbackDeliverySuccess : Int := 10

def callbackDeliveryFailed : Int := 20

/-- PaymentCallback status codes (service package constants). -/
def paymentCallbackStatusProcessed : Int := 10

def paymentCallbackStatusRejected : Int := 20

/-- Provider type code for Stripe (types.ProviderType). -/
def providerTypeStripe : Int := 1

/-- One second of Go `time.Duration` (nanoseconds). -/
def second : Int := 1000000000

/-- One minute of Go `time.Duration`. -/
def minute : Int := 60 * second

/-- ASCII whitespace recognized by `strings.TrimSpace` (the Unicode cases do
not occur in this service's data). -/
def isSpaceChar (c : Char) : Bool :=
  c == ' ' || c == '\t' || c == '\n' || c == '\r'

/-- Go strings.TrimSpace. -/
def trimSpace (s : String) : String :=
  ⟨((s.data.dropWhile isSpaceChar).reverse.dropWhile isSpaceChar).reverse⟩

/-- ASCII lowering of one character (Go strings.ToLower on ASCII data). -/
def lowerChar (c : Char) : Char :=
  if 'A' ≤ c && c ≤ 'Z' then Char.ofNat (c.toNat + 32) else c

/-- Go strings.ToLower. -/
def lowerStr (s : String) : String := ⟨s.data.map lowerChar⟩

/-- ASCII raising of one character (Go strings.ToUpper on ASCII data). -/
def upperChar (c : Char) : Char :=
  if 'a' ≤ c && c ≤ 'z' then Char.ofNat (c.toNat - 32) else c

/-- Go strings.ToUpper. -/
def upperStr (s : String) : String := ⟨s.data.map upperChar⟩

/-- Go `len(s)` (byte length in Go; character length here, equal on ASCII). -/
def lenStr (s : String) : Nat := s.data.length

/-- Go string slicing `s[:n]`. -/
def takeStr (s : String) (n : Nat) : String := ⟨s.data.take n⟩

/-- Entity entity.Payment, field for field. -/
@[ext]
structure Payment where
  id : Nat
  requestID : String
  callerService : String
  resourceType : String
  resourceID : String
  customerRef : Option String
  amountCents : Int
  currency : String
  status : Int
  paymentMethod : Int
  paymentType : Int
  provider : Int
  recurringInterval : Option String
  recurringIntervalCount : Option Int
  providerPaymentID : Option String
  providerSubscriptionID : Option String
  checkoutURL : Option String
  providerCallbackHash : String
  providerCallbackURL : String
  statusCallbackURL : String
  refundedCents : Int
  refundableCents : Int
  metadata : List (String × String)
  callbackDeliveryStatus : Int
  callbackDeliveryAttempts : Int
  callbackDeliveryNextAt : Option Int
  callbackDeliveryLastErr : Option String
  createdAt : Int
  updatedAt : Int
deriving Repr, DecidableEq, Inhabited

/-- Entity entity.PaymentEvent. -/
structure PaymentEvent where
  paymentID : Nat
  eventType : String
  oldStatus : Option Int
  newStatus : Int
  providerEventID : Option String
  payloadJSON : Option String
  createdAt : Int
deriving Repr, DecidableEq

/-- Entity entity.PaymentCallback. -/
structure PaymentCallback where
  paymentID : Option Nat
  provider : String
  callbackHash : String
  signature : String
  payloadJSON : String
  status : Int
  error : Option String
  createdAt : Int
  updatedAt : Int
deriving Repr, DecidableEq

/-- Service error values (service package `Err*` variables).  `invalidStatus`
carries the formatted message of `fmt.Errorf`. -/
inductive ServiceErr where
  | invalidRequest
  | paymentNotFound
  | paymentAlreadyExists
  | invalidStatus (msg : String)
  | providerUnsupported
  | callbackRejected
  | providerFailure (msg : String)
deriving Repr, DecidableEq

/-- Provider capability input (provider.CreateInput). -/
structure CreateInput where
  requestID : String
  callbackHash : String
  resourceType : String
  resourceID : String
  amountCents : Int
  currency : String
  paymentMethod : Int
  paymentType : Int
  recurringInterval : String
  recurringIntervalCount : Int
  customerRef : Option String
  metadata : List (String × String)
  successURL : String
  cancelURL : String
deriving Repr, DecidableEq

/-- Provider capability output (provider.CreateOutput). -/
structure CreateOutput where
  providerPaymentID : Option String
  providerSubscriptionID : Option String
  checkoutURL : Option String
  providerCallbackURL : String
  initialStatus : Int
deriving Repr, DecidableEq

/-- Parsed provider webhook event (provider.CallbackEvent). -/
structure CallbackEvent where
  providerEventID : Option String
  providerPaymentID : Option String
  providerSubscriptionID : Option String
  eventType : String
  newStatus : Int
deriving Repr, DecidableEq

/-- A provider capability (the provider.Provider interface), embedded as a
record of pure functions; a returned `.error` carries the Go error message. -/
structure ProviderImpl where
  code : Int
  createPayment : CreateInput → Except String CreateOutput
  verifyAndParseCallback : String → String → Except String (Option CallbackEvent)
  getPaymentStatus : String → Except String Int

/-- The provider registry (provider.Registry): lookup by code,
`none` standing for provider.ErrProviderNotSupported. -/
def registryGet (reg : List ProviderImpl) (code : Int) : Option ProviderImpl :=
  reg.find? (fun p => p.code == code)

/-- Config config.PaymentsConfig (durations in nanoseconds). -/
structure PaymentsConfig where
  callbackMaxAttempts : Int
  callbackRetryInterval : Int
  callbackHTTPTimeout : Int
  pendingTimeout : Int
  reconcileStaleAfter : Int
  jobBatchSize : Int
deriving Repr, DecidableEq

/-- Durable state touched by the service: the three repositories plus the
auto-increment counter of the payments table. -/
structure St where
  payments : List Payment
  nextID : Nat
  events : List PaymentEvent
  callbacks : List PaymentCallback
deriving Repr, DecidableEq

/-- Repository FindByCallerRequestID: first row matching the idempotency key. -/
def findByCallerRequestID (payments : List Payment) (callerService requestID : String) :
    Option Payment :=
  payments.find? (fun p => p.callerService == callerService && p.requestID == requestID)

/-- Repository FindByCallbackHash: first row matching the provider routing key. -/
def findByCallbackHash (payments : List Payment) (providerCode : Int) (callbackHash : String) :
    Option Payment :=
  payments.find? (fun p => p.provider == providerCode && p.providerCallbackHash == callbackHash)

/-- Repository FindByID. -/
def findByID (payments : List Payment) (id : Nat) : Option Payment :=
  payments.find? (fun p => p.id == id)

/-- Repository Create: fails with ErrPaymentAlreadyExists when either UNIQUE
index (idempotency key or provider routing key) collides; otherwise assigns
the next id and inserts.  Returns the stored row. -/
def repoCreate (st : St) (p : Payment) : Except ServiceErr (St × Payment) :=
  if st.payments.any (fun q =>
      (q.callerService == p.callerService && q.requestID == p.requestID) ||
      (q.provider == p.provider && q.providerCallbackHash == p.providerCallbackHash)) then
    .error .paymentAlreadyExists
  else
    let assigned := { p with id := st.nextID }
    .ok ({ st with payments := assigned :: st.payments, nextID := st.nextID + 1 }, assigned)

/-- Repository Update: replaces the row with the same id, ErrPaymentNotFound
when no row matched. -/
def repoUpdate (st : St) (p : Payment) : Except ServiceErr St :=
  if st.payments.any (fun q => q.id == p.id) then
    .ok { st with payments := st.payments.map (fun q => if q.id == p.id then p else q) }
  else
    .error .paymentNotFound

/-- Event repository Create (append-only; best-effort in the service). -/
def addEvent (st : St) (e : PaymentEvent) : St :=
  { st with events := st.events ++ [e] }

/-- Callback repository Create (append-only). -/
def addCallback (st : St) (c : PaymentCallback) : St :=
  { st with callbacks := st.callbacks ++ [c] }

/-- Function terminalStatus of the service package. -/
def terminalStatus (status : Int) : Bool :=
  status == statusPaid || status == statusFailed ||
    status == statusCanceled || status == statusExpired

/-- Method markForCallbackDelivery: arm the delivery sub-state. -/
def markForCallbackDelivery (p : Payment) (now : Int) : Payment :=
  { p with
    callbackDeliveryStatus := callbackDeliveryPending
    callbackDeliveryAttempts := 0
    callbackDeliveryNextAt := some now
    callbackDeliveryLastErr := none }

/-- Function truncate of the service package. -/
def truncate (value : String) (max : Nat) : String :=
  if lenStr value ≤ max then value else (takeStr value max)

/-- Function normalizeOptionalString. -/
def normalizeOptionalString (v : String) : Option String :=
  if trimSpace v == "" then none else some (trimSpace v)

/-- Function normalizeOptionalInt32. -/
def normalizeOptionalInt32 (v : Int) : Option Int :=
  if v ≤ 0 then none else some v

/-- Function cloneMetadata (aliasing is moot for immutable lists; the
empty-map normalization is kept). -/
def cloneMetadata (src : List (String × String)) : List (String × String) :=
  if src.isEmpty then [] else src

/-- Holds when the delivery sub-state of `p` is armed at `now`
(spec: "armed for delivery"). -/
def armedForDelivery (p : Payment) (now : Int) : Bool :=
  p.callbackDeliveryStatus == callbackDeliveryPending &&
    p.callbackDeliveryAttempts == 0 &&
    p.callbackDeliveryNextAt == some now &&
    p.callbackDeliveryLastErr == none

/-- Function parseProviderCode: trim, lowercase, accept the tags of Stripe. -/
def parseProviderCode (providerRaw : String) : Option Int :=
  if lowerStr (trimSpace providerRaw) == "stripe" || lowerStr (trimSpace providerRaw) == "1" then
    some providerTypeStripe
  else
    none

/-- Method batchSize of the service. -/
def batchSize (cfg : PaymentsConfig) : Int :=
  if cfg.jobBatchSize > 0 then cfg.jobBatchSize else 100

/-- The CreatePayment request projection (createPaymentRequest interface). -/
structure CreatePaymentRequest where
  requestId : String
  callerService : String
  resourceType : String
  resourceId : String
  customerRef : String
  amountCents : Int
  currency : String
  paymentMethod : Int
  paymentType : Int
  provider : Int
  recurringInterval : String
  recurringIntervalCount : Int
  statusCallbackUrl : String
  successUrl : String
  cancelUrl : String
  metadata : List (String × String)
deriving Repr, DecidableEq

instance {ε α : Type} [DecidableEq ε] [DecidableEq α] : DecidableEq (Except ε α) := fun a b =>
  match a, b with
  | .ok x, .ok y =>
    if h : x = y then .isTrue (by rw [h]) else .isFalse (by intro c; injection c; contradiction)
  | .error x, .error y =>
    if h : x = y then .isTrue (by rw [h]) else .isFalse (by intro c; injection c; contradiction)
  | .ok _, .error _ => .isFalse (by intro c; exact Except.noConfusion c)
  | .error _, .ok _ => .isFalse (by intro c; exact Except.noConfusion c)

/-- Result of CreatePayment: the returned value or error, the state after,
and how many times Provider.CreatePayment was invoked. -/
structure CreateResult where
  outcome : Except ServiceErr Payment
  st : St
  providerCalls : Nat
deriving Repr, DecidableEq

/-- Method CreatePayment of the service.  The fresh `uuid.NewString()`
callback hash and `time.Now().UTC()` are passed in as `freshHash`/`now`. -/
def createPayment (reg : List ProviderImpl) (st : St) (req : CreatePaymentRequest)
    (freshHash : String) (now : Int) : CreateResult :=
  let requestID := trimSpace req.requestId
  let callerService := trimSpace req.callerService
  if requestID == "" || callerService == "" then
    ⟨.error .invalidRequest, st, 0⟩
  else
    match findByCallerRequestID st.payments callerService requestID with
    | some existing => ⟨.ok existing, st, 0⟩
    | none =>
      let providerCode := if req.provider == 0 then providerTypeStripe else req.provider
      match registryGet reg providerCode with
      | none => ⟨.error .providerUnsupported, st, 0⟩
      | some client =>
        let callbackHash := freshHash
        let customerRef := normalizeOptionalString req.customerRef
        let metadata := cloneMetadata req.metadata
        match client.createPayment
            { requestID := requestID
              callbackHash := callbackHash
              resourceType := trimSpace req.resourceType
              resourceID := trimSpace req.resourceId
              amountCents := req.amountCents
              currency := upperStr (trimSpace req.currency)
              paymentMethod := req.paymentMethod
              paymentType := req.paymentType
              recurringInterval := lowerStr (trimSpace req.recurringInterval)
              recurringIntervalCount := req.recurringIntervalCount
              customerRef := customerRef
              metadata := metadata
              successURL := trimSpace req.successUrl
              cancelURL := trimSpace req.cancelUrl } with
        | .error e => ⟨.error (.providerFailure e), st, 1⟩
        | .ok providerOutput =>
          let payment : Payment :=
            { id := 0
              requestID := requestID
              callerService := callerService
              resourceType := trimSpace req.resourceType
              resourceID := trimSpace req.resourceId
              customerRef := customerRef
              amountCents := req.amountCents
              currency := upperStr (trimSpace req.currency)
              status := providerOutput.initialStatus
              paymentMethod := req.paymentMethod
              paymentType := req.paymentType
              provider := providerCode
              recurringInterval := normalizeOptionalString (lowerStr (trimSpace req.recurringInterval))
              recurringIntervalCount := normalizeOptionalInt32 req.recurringIntervalCount
              providerPaymentID := providerOutput.providerPaymentID
              providerSubscriptionID := providerOutput.providerSubscriptionID
              checkoutURL := providerOutput.checkoutURL
              providerCallbackHash := callbackHash
              providerCallbackURL := providerOutput.providerCallbackURL
              statusCallbackURL := trimSpace req.statusCallbackUrl
              refundedCents := 0
              refundableCents := req.amountCents
              metadata := metadata
              callbackDeliveryStatus := callbackDeliveryNone
              callbackDeliveryAttempts := 0
              callbackDeliveryNextAt := none
              callbackDeliveryLastErr := none
              createdAt := now
              updatedAt := now }
          let payment :=
            if terminalStatus payment.status then markForCallbackDelivery payment now else payment
          match repoCreate st payment with
          | .error e => ⟨.error e, st, 1⟩
          | .ok (st1, assigned) =>
            let st2 := addEvent st1
              { paymentID := assigned.id
                eventType := "payment_created"
                oldStatus := none
                newStatus := assigned.status
                providerEventID := none
                payloadJSON := none
                createdAt := now }
            ⟨.ok assigned, st2, 1⟩

/-- Method CancelPayment of the service.  `reason` is received but never read
by the source, hence the anonymous binder. -/
def cancelPayment (st : St) (id : Nat) (_reason : String) (now : Int) :
    (Except ServiceErr Payment) × St :=
  match findByID st.payments id with
  | none => (.error .paymentNotFound, st)
  | some payment =>
    if payment.status == statusPaid then
      (.error (.invalidStatus "invalid status: paid payments cannot be canceled"), st)
    else
      let oldStatus := payment.status
      let payment := markForCallbackDelivery { payment with status := statusCanceled } now
      let payment := { payment with updatedAt := now }
      match repoUpdate st payment with
      | .error _ => (.error .paymentNotFound, st)
      | .ok st1 =>
        let st2 := addEvent st1
          { paymentID := payment.id
            eventType := "payment_canceled"
            oldStatus := some oldStatus
            newStatus := payment.status
            providerEventID := none
            payloadJSON := none
            createdAt := now }
        (.ok payment, st2)

/-- The HandleProviderCallback request projection. -/
structure HandleProviderCallbackRequest where
  provider : String
  callbackHash : String
  signature : String
  payload : String
deriving Repr, DecidableEq

/-- Result of HandleProviderCallback: outcome, state after, and how many
times Provider.VerifyAndParseCallback was invoked. -/
structure HandleResult where
  outcome : Except ServiceErr Payment
  st : St
  verifyCalls : Nat
deriving Repr, DecidableEq

/-- Method persistRejectedCallback of the service. -/
def persistRejectedCallback (st : St) (paymentID : Option Nat)
    (req : HandleProviderCallbackRequest) (reason : String) (now : Int) : St :=
  let reason := trimSpace reason
  let reason := if reason == "" then "callback rejected" else reason
  let trimmedErr := truncate reason 1024
  addCallback st
    { paymentID := paymentID
      provider := lowerStr (trimSpace req.provider)
      callbackHash := trimSpace req.callbackHash
      signature := trimSpace req.signature
      payloadJSON := req.payload
      status := paymentCallbackStatusRejected
      error := some trimmedErr
      createdAt := now
      updatedAt := now }

/-- The mutation HandleProviderCallback applies to the resolved payment:
overwrite the provider artifacts when present, take the event's new status
when positive, arm for delivery when the status changed into terminal, and
bump `updated_at`. -/
def applyCallbackEvent (found : Payment) (parsedEvent : CallbackEvent) (now : Int) : Payment :=
  let oldStatus := found.status
  let p1 :=
    match parsedEvent.providerPaymentID with
    | some pid => { found with providerPaymentID := some pid }
    | none => found
  let p2 :=
    match parsedEvent.providerSubscriptionID with
    | some sid => { p1 with providerSubscriptionID := some sid }
    | none => p1
  let p3 :=
    if parsedEvent.newStatus > 0 then { p2 with status := parsedEvent.newStatus } else p2
  let p4 :=
    if p3.status != oldStatus && terminalStatus p3.status then
      markForCallbackDelivery p3 now
    else p3
  { p4 with updatedAt := now }

/-- Method HandleProviderCallback of the service. -/
def handleProviderCallback (reg : List ProviderImpl) (st : St)
    (req : HandleProviderCallbackRequest) (now : Int) : HandleResult :=
  match parseProviderCode req.provider with
  | none => ⟨.error .providerUnsupported, st, 0⟩
  | some providerCode =>
    match registryGet reg providerCode with
    | none => ⟨.error .providerUnsupported, st, 0⟩
    | some client =>
      let payload := req.payload
      let signature := trimSpace req.signature
      match client.verifyAndParseCallback payload signature with
      | .error e =>
        let st1 := persistRejectedCallback st none req
          ("provider callback validation failed: " ++ e) now
        ⟨.error .callbackRejected, st1, 1⟩
      | .ok none =>
        let st1 := persistRejectedCallback st none req
          "provider callback payload could not be parsed" now
        ⟨.error .callbackRejected, st1, 1⟩
      | .ok (some parsedEvent) =>
        let callbackHash := trimSpace req.callbackHash
        match findByCallbackHash st.payments providerCode callbackHash with
        | none =>
          let st1 := persistRejectedCallback st none req
            "payment not found for callback hash" now
          ⟨.error .paymentNotFound, st1, 1⟩
        | some found =>
          let oldStatus := found.status
          let p5 := applyCallbackEvent found parsedEvent now
          match repoUpdate st p5 with
          | .error _ => ⟨.error .paymentNotFound, st, 1⟩
          | .ok st1 =>
            let eventType :=
              if trimSpace parsedEvent.eventType == "" then "provider_callback"
              else trimSpace parsedEvent.eventType
            let oldStatusPtr := if oldStatus == p5.status then none else some oldStatus
            let st2 := addEvent st1
              { paymentID := p5.id
                eventType := eventType
                oldStatus := oldStatusPtr
                newStatus := p5.status
                providerEventID := parsedEvent.providerEventID
                payloadJSON := some payload
                createdAt := now }
            let st3 := addCallback st2
              { paymentID := some p5.id
                provider := lowerStr (trimSpace req.provider)
                callbackHash := callbackHash
                signature := signature
                payloadJSON := payload
                status := paymentCallbackStatusProcessed
                error := none
                createdAt := now
                updatedAt := now }
            ⟨.ok p5, st3, 1⟩

/-- Errors surfaced by the dispatcher and the batch workers: either a
repository error or a Go error carried as its message. -/
inductive WorkerErr where
  | service (e : ServiceErr)
  | failure (msg : String)
deriving Repr, DecidableEq

/-- Outcome of the outbound HTTP POST to `status_callback_url`: a transport
error or a response status code. -/
inductive HTTPResult where
  | transportError (msg : String)
  | response (statusCode : Int)
deriving Repr, DecidableEq

/-- Method recordDispatchFailure of the service.  The second component is the
error returned to the batch (always non-nil in the source). -/
def recordDispatchFailure (cfg : PaymentsConfig) (st : St) (payment : Payment)
    (now : Int) (dispatchErr : String) : St × Option WorkerErr :=
  let p1 := { payment with
    callbackDeliveryAttempts := payment.callbackDeliveryAttempts + 1
    callbackDeliveryLastErr := some (truncate dispatchErr 1024) }
  let maxAttempts := if cfg.callbackMaxAttempts ≤ 0 then 1 else cfg.callbackMaxAttempts
  let p2 :=
    if p1.callbackDeliveryAttempts ≥ maxAttempts then
      { p1 with
        callbackDeliveryStatus := callbackDeliveryFailed
        callbackDeliveryNextAt := none }
    else
      let retryInterval :=
        if cfg.callbackRetryInterval ≤ 0 then 5 * minute else cfg.callbackRetryInterval
      { p1 with
        callbackDeliveryStatus := callbackDeliveryPending
        callbackDeliveryNextAt := some (now + retryInterval) }
  let p3 := { p2 with updatedAt := now }
  match repoUpdate st p3 with
  | .error e => (st, some (.service e))
  | .ok st1 =>
    let st2 := addEvent st1
      { paymentID := p3.id
        eventType := "callback_dispatch_failed"
        oldStatus := none
        newStatus := p3.status
        providerEventID := none
        payloadJSON := none
        createdAt := now }
    (st2, some (.failure dispatchErr))

/-- Method dispatchCallback of the service.  The HTTP exchange is an external
effect, passed in as `httpResult`; JSON marshalling of the envelope cannot
fail on the embedded data. -/
def dispatchCallback (cfg : PaymentsConfig) (st : St) (payment : Payment) (now : Int)
    (httpResult : HTTPResult) : St × Option WorkerErr :=
  if trimSpace payment.statusCallbackURL == "" then
    let p1 := { payment with
      callbackDeliveryStatus := callbackDeliveryFailed
      callbackDeliveryNextAt := none
      callbackDeliveryLastErr := some "status_callback_url is empty"
      updatedAt := now }
    match repoUpdate st p1 with
    | .error e => (st, some (.service e))
    | .ok st1 => (st1, none)
  else
    match httpResult with
    | .transportError msg => recordDispatchFailure cfg st payment now msg
    | .response statusCode =>
      if statusCode < 200 || statusCode ≥ 300 then
        recordDispatchFailure cfg st payment now
          ("callback endpoint returned status=" ++ toString statusCode)
      else
        let p1 := { payment with
          callbackDeliveryStatus := callbackDeliverySuccess
          callbackDeliveryNextAt := none
          callbackDeliveryLastErr := none
          updatedAt := now }
        match repoUpdate st p1 with
        | .error e => (st, some (.service e))
        | .ok st1 =>
          let st2 := addEvent st1
            { paymentID := p1.id
              eventType := "callback_dispatched"
              oldStatus := none
              newStatus := p1.status
              providerEventID := none
              payloadJSON := none
              createdAt := now }
          (st2, none)

/-- Function keepFirstErr of the worker file. -/
def keepFirstErr (current candidate : Option WorkerErr) : Option WorkerErr :=
  match current with
  | some e => some e
  | none => candidate

/-- Function limitItems of the repository contract. -/
def limitItems (items : List Payment) (limit : Int) : List Payment :=
  if limit ≤ 0 then items else items.take limit.toNat

/-- Repository ListForReconcile predicate: PENDING or PROCESSING, a provider
payment id present, updated_at not after the staleness cutoff. -/
def listForReconcileFilter (payments : List Payment) (before : Int) : List Payment :=
  payments.filter (fun p =>
    (p.status == statusPending || p.status == statusProcessing) &&
      p.providerPaymentID.isSome && decide (p.updatedAt ≤ before))

/-- Repository ListExpiredPending predicate. -/
def listExpiredPendingFilter (payments : List Payment) (cutoff : Int) : List Payment :=
  payments.filter (fun p =>
    (p.status == statusPending || p.status == statusProcessing) &&
      decide (p.createdAt ≤ cutoff))

/-- Repository ListDueCallbackDispatch predicate. -/
def listDueCallbackDispatchFilter (payments : List Payment) (now : Int) : List Payment :=
  payments.filter (fun p =>
    p.callbackDeliveryStatus == callbackDeliveryPending &&
      match p.callbackDeliveryNextAt with
      | some t => decide (t ≤ now)
      | none => false)

/-- The payment value written by the reconcile loop body (lines applying a
fresh provider status). -/
def reconciledPayment (payment : Payment) (newStatus : Int) (now : Int) : Payment :=
  let p1 := { payment with status := newStatus }
  let p2 := if terminalStatus newStatus then markForCallbackDelivery p1 now else p1
  { p2 with updatedAt := now }

/-- The payment value written by the expire loop body. -/
def expiredPayment (payment : Payment) (now : Int) : Payment :=
  let p1 := markForCallbackDelivery { payment with status := statusExpired } now
  { p1 with updatedAt := now }

/-- Per-item body of the RunReconcileBatch loop. -/
def reconcileOne (reg : List ProviderImpl) (st : St) (payment : Payment) (now : Int) :
    St × Option WorkerErr :=
  match payment.providerPaymentID with
  | none => (st, none)
  | some pid =>
    if trimSpace pid == "" then (st, none)
    else
      match registryGet reg payment.provider with
      | none => (st, some (.failure "provider is not supported"))
      | some client =>
        match client.getPaymentStatus (trimSpace pid) with
        | .error e => (st, some (.failure e))
        | .ok newStatus =>
          if newStatus == 0 || newStatus == payment.status then (st, none)
          else
            let oldStatus := payment.status
            let p3 := reconciledPayment payment newStatus now
            match repoUpdate st p3 with
            | .error e => (st, some (.service e))
            | .ok st1 =>
              let st2 := addEvent st1
                { paymentID := p3.id
                  eventType := "payment_reconciled"
                  oldStatus := some oldStatus
                  newStatus := newStatus
                  providerEventID := none
                  payloadJSON := none
                  createdAt := now }
              (st2, none)

/-- Method RunReconcileBatch: drain one batch, keep the first error. -/
def runReconcileBatch (reg : List ProviderImpl) (cfg : PaymentsConfig) (st : St)
    (now : Int) : St × Option WorkerErr :=
  let before := now - cfg.reconcileStaleAfter
  let items := limitItems (listForReconcileFilter st.payments before) (batchSize cfg)
  items.foldl (fun acc payment =>
    let r := reconcileOne reg acc.1 payment now
    (r.1, keepFirstErr acc.2 r.2)) (st, none)

/-- Per-item body of the RunExpirePendingBatch loop. -/
def expireOne (st : St) (payment : Payment) (now : Int) : St × Option WorkerErr :=
  if payment.status == statusExpired then (st, none)
  else
    let oldStatus := payment.status
    let p2 := expiredPayment payment now
    match repoUpdate st p2 with
    | .error e => (st, some (.service e))
    | .ok st1 =>
      let st2 := addEvent st1
        { paymentID := p2.id
          eventType := "payment_expired"
          oldStatus := some oldStatus
          newStatus := p2.status
          providerEventID := none
          payloadJSON := none
          createdAt := now }
      (st2, none)

/-- Method RunExpirePendingBatch. -/
def runExpirePendingBatch (cfg : PaymentsConfig) (st : St) (now : Int) :
    St × Option WorkerErr :=
  let cutoff := now - cfg.pendingTimeout
  let items := limitItems (listExpiredPendingFilter st.payments cutoff) (batchSize cfg)
  items.foldl (fun acc payment =>
    let r := expireOne acc.1 payment now
    (r.1, keepFirstErr acc.2 r.2)) (st, none)

/-- Method RunDispatchCallbacksBatch; `http` gives the outcome of the POST
for each payment in the batch. -/
def runDispatchCallbacksBatch (cfg : PaymentsConfig) (st : St) (now : Int)
    (http : Payment → HTTPResult) : St × Option WorkerErr :=
  let items := limitItems (listDueCallbackDispatchFilter st.payments now) (batchSize cfg)
  items.foldl (fun acc payment =>
    let r := dispatchCallback cfg acc.1 payment now (http payment)
    (r.1, keepFirstErr acc.2 r.2)) (st, none)

/-- Rows of a payments table have pairwise distinct ids (the storage engine
assigns them via auto-increment). -/
def uniqueIDs (payments : List Payment) : Prop :=
  payments.Pairwise (fun a b => a.id ≠ b.id)

instance (payments : List Payment) : Decidable (uniqueIDs payments) := by
  unfold uniqueIDs; infer_instance

/-- Substring relation used to state the error-message contract. -/
def containsSubstr (s sub : String) : Prop :=
  sub.data <:+: s.data

instance (s sub : String) : Decidable (containsSubstr s sub) := by
  unfold containsSubstr; infer_instance

theorem mem_of_find?_key {l : List Payment} {key : Payment → Bool} {p0 : Payment}
    (h : l.find? key = some p0) : p0 ∈ l :=
  List.mem_of_find?_eq_some h

theorem any_id_of_mem {l : List Payment} {p0 : Payment} {pid : Nat}
    (h : p0 ∈ l) (hid : p0.id = pid) : l.any (fun q => q.id == pid) = true := by
  rw [List.any_eq_true]
  exact ⟨p0, h, by simp [hid]⟩

theorem repoUpdate_ok (st : St) (p : Payment)
    (h : st.payments.any (fun q => q.id == p.id) = true) :
    repoUpdate st p =
      .ok { st with payments := st.payments.map (fun q => if q.id == p.id then p else q) } := by
  simp [repoUpdate, h]

/-- Replacing the row that carries the matched id redirects a key-based
lookup to the replacement, provided ids are unique and the replacement still
matches the key. -/
theorem find?_map_replace (key : Payment → Bool) (l : List Payment) (p0 p : Payment)
    (hfind : l.find? key = some p0) (hid : p.id = p0.id) (hkey : key p = true)
    (huniq : uniqueIDs l) :
    (l.map (fun q => if q.id == p.id then p else q)).find? key = some p := by
  induction l with
  | nil => simp at hfind
  | cons h t ih =>
    rcases List.pairwise_cons.mp huniq with ⟨hh, ht⟩
    by_cases hk : key h = true
    · rw [List.find?_cons_of_pos _ hk] at hfind
      have hh0 : h = p0 := by injection hfind
      subst hh0
      have hbeq : (h.id == p.id) = true := by simp [hid]
      simp only [List.map_cons, hbeq, if_true]
      exact List.find?_cons_of_pos _ hkey
    · rw [List.find?_cons_of_neg _ hk] at hfind
      have hmem : p0 ∈ t := List.mem_of_find?_eq_some hfind
      have hne : h.id ≠ p0.id := hh p0 hmem
      have hbeq : (h.id == p.id) = false := by
        rw [hid]; simpa using hne
      simp only [List.map_cons, hbeq, if_false, Bool.false_eq_true]
      rw [List.find?_cons_of_neg _ hk]
      exact ih hfind ht

/-- The replacement performed by Update preserves id-uniqueness when the
replacement keeps the id of the row it replaces. -/
theorem uniqueIDs_map_replace (l : List Payment) (p : Payment)
    (huniq : uniqueIDs l) :
    uniqueIDs (l.map (fun q => if q.id == p.id then p else q)) := by
  unfold uniqueIDs at *
  rw [List.pairwise_map]
  refine huniq.imp_of_mem ?_
  intro a b _ _ hab
  by_cases ha : (a.id == p.id) = true
  · by_cases hb : (b.id == p.id) = true
    · have ha' : a.id = p.id := by simpa using ha
      have hb' : b.id = p.id := by simpa using hb
      exact (hab (ha'.trans hb'.symm)).elim
    · have hb' : ¬b.id = p.id := by simpa using hb
      simp only [ha, if_true, hb, if_false, Bool.false_eq_true]
      exact fun h => hb' h.symm
  · by_cases hb : (b.id == p.id) = true
    · have ha' : ¬a.id = p.id := by simpa using ha
      simp only [ha, hb, if_true, if_false, Bool.false_eq_true]
      exact ha'
    · simp only [ha, hb, if_false, Bool.false_eq_true]
      exact hab

theorem applyCallbackEvent_id (found : Payment) (ev : CallbackEvent) (now : Int) :
    (applyCallbackEvent found ev now).id = found.id := by
  unfold applyCallbackEvent markForCallbackDelivery
  cases ev.providerPaymentID <;> cases ev.providerSubscriptionID <;>
    dsimp only <;> split <;> split <;> rfl

theorem applyCallbackEvent_provider (found : Payment) (ev : CallbackEvent) (now : Int) :
    (applyCallbackEvent found ev now).provider = found.provider := by
  unfold applyCallbackEvent markForCallbackDelivery
  cases ev.providerPaymentID <;> cases ev.providerSubscriptionID <;>
    dsimp only <;> split <;> split <;> rfl

theorem applyCallbackEvent_hash (found : Payment) (ev : CallbackEvent) (now : Int) :
    (applyCallbackEvent found ev now).providerCallbackHash = found.providerCallbackHash := by
  unfold applyCallbackEvent markForCallbackDelivery
  cases ev.providerPaymentID <;> cases ev.providerSubscriptionID <;>
    dsimp only <;> split <;> split <;> rfl

theorem applyCallbackEvent_status (found : Payment) (ev : CallbackEvent) (now : Int) :
    (applyCallbackEvent found ev now).status =
      if ev.newStatus > 0 then ev.newStatus else found.status := by
  unfold applyCallbackEvent markForCallbackDelivery
  cases ev.providerPaymentID <;> cases ev.providerSubscriptionID <;>
    dsimp only <;> split <;> split <;> rfl

theorem applyCallbackEvent_updatedAt (found : Payment) (ev : CallbackEvent) (now : Int) :
    (applyCallbackEvent found ev now).updatedAt = now :=
  rfl

theorem applyCallbackEvent_pid_some (found : Payment) (ev : CallbackEvent) (now : Int)
    (pid : String) (h : ev.providerPaymentID = some pid) :
    (applyCallbackEvent found ev now).providerPaymentID = some pid := by
  unfold applyCallbackEvent markForCallbackDelivery
  rw [h]
  cases ev.providerSubscriptionID <;> dsimp only <;> split <;> split <;> rfl

theorem applyCallbackEvent_pid_none (found : Payment) (ev : CallbackEvent) (now : Int)
    (h : ev.providerPaymentID = none) :
    (applyCallbackEvent found ev now).providerPaymentID = found.providerPaymentID := by
  unfold applyCallbackEvent markForCallbackDelivery
  rw [h]
  cases ev.providerSubscriptionID <;> dsimp only <;> split <;> split <;> rfl

theorem applyCallbackEvent_sid_some (found : Payment) (ev : CallbackEvent) (now : Int)
    (sid : String) (h : ev.providerSubscriptionID = some sid) :
    (applyCallbackEvent found ev now).providerSubscriptionID = some sid := by
  unfold applyCallbackEvent markForCallbackDelivery
  rw [h]
  cases ev.providerPaymentID <;> dsimp only <;> split <;> split <;> rfl

theorem applyCallbackEvent_sid_none (found : Payment) (ev : CallbackEvent) (now : Int)
    (h : ev.providerSubscriptionID = none) :
    (applyCallbackEvent found ev now).providerSubscriptionID = found.providerSubscriptionID := by
  unfold applyCallbackEvent markForCallbackDelivery
  rw [h]
  cases ev.providerPaymentID <;> dsimp only <;> split <;> split <;> rfl

theorem withPid_self (g : Payment) (v : Option String) (h : g.providerPaymentID = v) :
    ({ g with providerPaymentID := v } : Payment) = g := by
  rw [← h]

theorem withSid_self (g : Payment) (v : Option String) (h : g.providerSubscriptionID = v) :
    ({ g with providerSubscriptionID := v } : Payment) = g := by
  rw [← h]

theorem withStatus_self (g : Payment) (v : Int) (h : g.status = v) :
    ({ g with status := v } : Payment) = g := by
  rw [← h]

/-- Fields the callback mutation never touches. -/
theorem applyCallbackEvent_frame (p : Payment) (ev : CallbackEvent) (now : Int) :
    (applyCallbackEvent p ev now).requestID = p.requestID ∧
    (applyCallbackEvent p ev now).callerService = p.callerService ∧
    (applyCallbackEvent p ev now).resourceType = p.resourceType ∧
    (applyCallbackEvent p ev now).resourceID = p.resourceID ∧
    (applyCallbackEvent p ev now).customerRef = p.customerRef ∧
    (applyCallbackEvent p ev now).amountCents = p.amountCents ∧
    (applyCallbackEvent p ev now).currency = p.currency ∧
    (applyCallbackEvent p ev now).paymentMethod = p.paymentMethod ∧
    (applyCallbackEvent p ev now).paymentType = p.paymentType ∧
    (applyCallbackEvent p ev now).recurringInterval = p.recurringInterval ∧
    (applyCallbackEvent p ev now).recurringIntervalCount = p.recurringIntervalCount ∧
    (applyCallbackEvent p ev now).checkoutURL = p.checkoutURL ∧
    (applyCallbackEvent p ev now).providerCallbackURL = p.providerCallbackURL ∧
    (applyCallbackEvent p ev now).statusCallbackURL = p.statusCallbackURL ∧
    (applyCallbackEvent p ev now).refundedCents = p.refundedCents ∧
    (applyCallbackEvent p ev now).refundableCents = p.refundableCents ∧
    (applyCallbackEvent p ev now).metadata = p.metadata ∧
    (applyCallbackEvent p ev now).createdAt = p.createdAt := by
  unfold applyCallbackEvent markForCallbackDelivery
  cases ev.providerPaymentID <;> cases ev.providerSubscriptionID <;>
    dsimp only <;> split <;> split <;> simp

/-- When the mutation did not change the status, the delivery sub-state is
not re-armed. -/
theorem applyCallbackEvent_delivery_of_unchanged (p : Payment) (ev : CallbackEvent) (now : Int)
    (h : (applyCallbackEvent p ev now).status = p.status) :
    (applyCallbackEvent p ev now).callbackDeliveryStatus = p.callbackDeliveryStatus ∧
    (applyCallbackEvent p ev now).callbackDeliveryAttempts = p.callbackDeliveryAttempts ∧
    (applyCallbackEvent p ev now).callbackDeliveryNextAt = p.callbackDeliveryNextAt ∧
    (applyCallbackEvent p ev now).callbackDeliveryLastErr = p.callbackDeliveryLastErr := by
  rw [applyCallbackEvent_status] at h
  unfold applyCallbackEvent markForCallbackDelivery
  by_cases hns : ev.newStatus > 0
  · rw [if_pos hns] at h
    cases ev.providerPaymentID <;> cases ev.providerSubscriptionID <;>
      dsimp only <;>
      simp only [if_pos hns, h, bne_self_eq_false, Bool.false_and, Bool.false_eq_true,
        if_false] <;>
      simp
  · rw [if_neg hns] at h
    cases ev.providerPaymentID <;> cases ev.providerSubscriptionID <;>
      dsimp only <;>
      simp only [if_neg hns, bne_self_eq_false, Bool.false_and, Bool.false_eq_true, if_false] <;>
      simp

/-- A second application of the callback mutation with the same event only
bumps `updated_at`: the status is already the mapped one, the provider
artifacts are already overwritten, and the status-changed guard is false, so
the delivery sub-state is not re-armed. -/
theorem applyCallbackEvent_replay (found : Payment) (ev : CallbackEvent) (now1 now2 : Int) :
    applyCallbackEvent (applyCallbackEvent found ev now1) ev now2 =
      { applyCallbackEvent found ev now1 with updatedAt := now2 } := by
  set g := applyCallbackEvent found ev now1 with hg
  have hstat2 : (applyCallbackEvent g ev now2).status = g.status := by
    rw [applyCallbackEvent_status]
    by_cases hns : ev.newStatus > 0
    · rw [if_pos hns, hg, applyCallbackEvent_status, if_pos hns]
    · rw [if_neg hns]
  have hdel := applyCallbackEvent_delivery_of_unchanged g ev now2 hstat2
  have hframe := applyCallbackEvent_frame g ev now2
  have hpid2 : (applyCallbackEvent g ev now2).providerPaymentID = g.providerPaymentID := by
    rcases hp : ev.providerPaymentID with _ | pid
    · exact applyCallbackEvent_pid_none g ev now2 hp
    · rw [applyCallbackEvent_pid_some g ev now2 pid hp, hg,
        applyCallbackEvent_pid_some found ev now1 pid hp]
  have hsid2 : (applyCallbackEvent g ev now2).providerSubscriptionID
      = g.providerSubscriptionID := by
    rcases hs : ev.providerSubscriptionID with _ | sid
    · exact applyCallbackEvent_sid_none g ev now2 hs
    · rw [applyCallbackEvent_sid_some g ev now2 sid hs, hg,
        applyCallbackEvent_sid_some found ev now1 sid hs]
  ext : 1
  case id => exact applyCallbackEvent_id g ev now2
  case requestID => exact hframe.1
  case callerService => exact hframe.2.1
  case resourceType => exact hframe.2.2.1
  case resourceID => exact hframe.2.2.2.1
  case customerRef => exact hframe.2.2.2.2.1
  case amountCents => exact hframe.2.2.2.2.2.1
  case currency => exact hframe.2.2.2.2.2.2.1
  case status => exact hstat2
  case paymentMethod => exact hframe.2.2.2.2.2.2.2.1
  case paymentType => exact hframe.2.2.2.2.2.2.2.2.1
  case provider => exact applyCallbackEvent_provider g ev now2
  case recurringInterval => exact hframe.2.2.2.2.2.2.2.2.2.1
  case recurringIntervalCount => exact hframe.2.2.2.2.2.2.2.2.2.2.1
  case providerPaymentID => exact hpid2
  case providerSubscriptionID => exact hsid2
  case checkoutURL => exact hframe.2.2.2.2.2.2.2.2.2.2.2.1
  case providerCallbackHash => exact applyCallbackEvent_hash g ev now2
  case providerCallbackURL => exact hframe.2.2.2.2.2.2.2.2.2.2.2.2.1
  case statusCallbackURL => exact hframe.2.2.2.2.2.2.2.2.2.2.2.2.2.1
  case refundedCents => exact hframe.2.2.2.2.2.2.2.2.2.2.2.2.2.2.1
  case refundableCents => exact hframe.2.2.2.2.2.2.2.2.2.2.2.2.2.2.2.1
  case metadata => exact hframe.2.2.2.2.2.2.2.2.2.2.2.2.2.2.2.2.1
  case callbackDeliveryStatus => exact hdel.1
  case callbackDeliveryAttempts => exact hdel.2.1
  case callbackDeliveryNextAt => exact hdel.2.2.1
  case callbackDeliveryLastErr => exact hdel.2.2.2
  case createdAt => exact hframe.2.2.2.2.2.2.2.2.2.2.2.2.2.2.2.2.2
  case updatedAt => rfl

/-- The state and result of HandleProviderCallback on the success path, fully
characterized by the four lookups it performs. -/
theorem handle_found_eq (reg : List ProviderImpl) (st : St) (req : HandleProviderCallbackRequest)
    (now : Int) (code : Int) (client : ProviderImpl) (ev : CallbackEvent) (found : Payment)
    (h1 : parseProviderCode req.provider = some code)
    (h2 : registryGet reg code = some client)
    (h3 : client.verifyAndParseCallback req.payload (trimSpace req.signature) = .ok (some ev))
    (h4 : findByCallbackHash st.payments code (trimSpace req.callbackHash) = some found) :
    handleProviderCallback reg st req now =
      ⟨.ok (applyCallbackEvent found ev now),
        addCallback
          (addEvent
            { st with payments := st.payments.map (fun q =>
                if q.id == (applyCallbackEvent found ev now).id then
                  applyCallbackEvent found ev now
                else q) }
            { paymentID := (applyCallbackEvent found ev now).id
              eventType :=
                if trimSpace ev.eventType == "" then "provider_callback" else trimSpace ev.eventType
              oldStatus :=
                if found.status == (applyCallbackEvent found ev now).status then none
                else some found.status
              newStatus := (applyCallbackEvent found ev now).status
              providerEventID := ev.providerEventID
              payloadJSON := some req.payload
              createdAt := now })
          { paymentID := some (applyCallbackEvent found ev now).id
            provider := lowerStr (trimSpace req.provider)
            callbackHash := trimSpace req.callbackHash
            signature := trimSpace req.signature
            payloadJSON := req.payload
            status := paymentCallbackStatusProcessed
            error := none
            createdAt := now
            updatedAt := now },
        1⟩ := by
  have hmem : found ∈ st.payments := mem_of_find?_key h4
  have hany : st.payments.any (fun q => q.id == (applyCallbackEvent found ev now).id) = true :=
    any_id_of_mem hmem (applyCallbackEvent_id found ev now).symm
  simp only [handleProviderCallback, h1, h2, h3, h4]
  rw [repoUpdate_ok st (applyCallbackEvent found ev now) hany]

theorem handle_eq_of_parse_none (reg : List ProviderImpl) (st : St)
    (req : HandleProviderCallbackRequest) (now : Int)
    (h : parseProviderCode req.provider = none) :
    handleProviderCallback reg st req now = ⟨.error .providerUnsupported, st, 0⟩ := by
  unfold handleProviderCallback; rw [h]

theorem handle_eq_of_registry_none (reg : List ProviderImpl) (st : St)
    (req : HandleProviderCallbackRequest) (now : Int) (code : Int)
    (h1 : parseProviderCode req.provider = some code)
    (h2 : registryGet reg code = none) :
    handleProviderCallback reg st req now = ⟨.error .providerUnsupported, st, 0⟩ := by
  simp only [handleProviderCallback, h1, h2]

theorem handle_eq_of_verify_error (reg : List ProviderImpl) (st : St)
    (req : HandleProviderCallbackRequest) (now : Int) (code : Int) (client : ProviderImpl)
    (e : String)
    (h1 : parseProviderCode req.provider = some code)
    (h2 : registryGet reg code = some client)
    (h3 : client.verifyAndParseCallback req.payload (trimSpace req.signature) = .error e) :
    handleProviderCallback reg st req now =
      ⟨.error .callbackRejected,
        persistRejectedCallback st none req
          ("provider callback validation failed: " ++ e) now, 1⟩ := by
  simp only [handleProviderCallback, h1, h2, h3]

theorem handle_eq_of_verify_nil (reg : List ProviderImpl) (st : St)
    (req : HandleProviderCallbackRequest) (now : Int) (code : Int) (client : ProviderImpl)
    (h1 : parseProviderCode req.provider = some code)
    (h2 : registryGet reg code = some client)
    (h3 : client.verifyAndParseCallback req.payload (trimSpace req.signature) = .ok none) :
    handleProviderCallback reg st req now =
      ⟨.error .callbackRejected,
        persistRejectedCallback st none req
          "provider callback payload could not be parsed" now, 1⟩ := by
  simp only [handleProviderCallback, h1, h2, h3]

theorem handle_eq_of_payment_none (reg : List ProviderImpl) (st : St)
    (req : HandleProviderCallbackRequest) (now : Int) (code : Int) (client : ProviderImpl)
    (ev : CallbackEvent)
    (h1 : parseProviderCode req.provider = some code)
    (h2 : registryGet reg code = some client)
    (h3 : client.verifyAndParseCallback req.payload (trimSpace req.signature) = .ok (some ev))
    (h4 : findByCallbackHash st.payments code (trimSpace req.callbackHash) = none) :
    handleProviderCallback reg st req now =
      ⟨.error .paymentNotFound,
        persistRejectedCallback st none req "payment not found for callback hash" now, 1⟩ := by
  simp only [handleProviderCallback, h1, h2, h3, h4]

theorem persistReason_ne_empty (reason : String) :
    (if trimSpace reason == "" then "callback rejected" else trimSpace reason) ≠ "" := by
  by_cases h : (trimSpace reason == "") = true
  · rw [if_pos h]; decide
  · rw [if_neg h]; simpa using h

theorem truncate_ne_empty (s : String) (h : s ≠ "") : truncate s 1024 ≠ "" := by
  have hd : s.data ≠ [] := by
    intro hnil
    exact h (String.ext hnil)
  unfold truncate
  by_cases hl : lenStr s ≤ 1024
  · rw [if_pos hl]; exact h
  · rw [if_neg hl]
    intro hc
    have htake : s.data.take 1024 = ([] : List Char) := congrArg String.data hc
    rcases List.take_eq_nil_iff.mp htake with h1 | h1
    · exact absurd h1 (by decide)
    · exact hd h1

/-! Concrete fixtures for witnesses and counterexamples. -/

/-- Extracts the status of a returned payment. -/
def statusOfOutcome : Except ServiceErr Payment → Option Int
  | .ok p => some p.status
  | .error _ => none

def tagStripe : String := "stripe"

def tagOne : String := "1"

def paymentPending : Payment :=
  { id := 1
    requestID := "req-1"
    callerService := "subs"
    resourceType := "subscription"
    resourceID := "sub-1"
    customerRef := none
    amountCents := 1000
    currency := "USD"
    status := statusPending
    paymentMethod := 1
    paymentType := 1
    provider := providerTypeStripe
    recurringInterval := none
    recurringIntervalCount := none
    providerPaymentID := some "cs_1"
    providerSubscriptionID := none
    checkoutURL := none
    providerCallbackHash := "hash-1"
    providerCallbackURL := "https://gw/cb/hash-1"
    statusCallbackURL := "https://caller/cb"
    refundedCents := 0
    refundableCents := 1000
    metadata := []
    callbackDeliveryStatus := callbackDeliveryNone
    callbackDeliveryAttempts := 0
    callbackDeliveryNextAt := none
    callbackDeliveryLastErr := none
    createdAt := 0
    updatedAt := 0 }

def paymentPaid : Payment := { paymentPending with status := statusPaid }

def paymentFailedDelivery : Payment := { paymentPending with status := statusFailed }

def evPaid : CallbackEvent :=
  { providerEventID := some "evt_1"
    providerPaymentID := none
    providerSubscriptionID := none
    eventType := "checkout.session.completed"
    newStatus := statusPaid }

def evSubDeleted : CallbackEvent :=
  { providerEventID := some "evt_2"
    providerPaymentID := none
    providerSubscriptionID := none
    eventType := "customer.subscription.deleted"
    newStatus := statusCanceled }

def stubOut : CreateOutput :=
  { providerPaymentID := some "cs_1"
    providerSubscriptionID := none
    checkoutURL := some "https://stripe/checkout"
    providerCallbackURL := "https://gw/cb"
    initialStatus := statusPending }

def stubPaid : ProviderImpl :=
  { code := providerTypeStripe
    createPayment := fun _ => .ok stubOut
    verifyAndParseCallback := fun _ _ => .ok (some evPaid)
    getPaymentStatus := fun _ => .ok statusPaid }

def stubSubDeleted : ProviderImpl :=
  { stubPaid with verifyAndParseCallback := fun _ _ => .ok (some evSubDeleted) }

def stubReject : ProviderImpl :=
  { stubPaid with verifyAndParseCallback := fun _ _ => .error "signature mismatch" }

def stPending : St := { payments := [paymentPending], nextID := 2, events := [], callbacks := [] }

def stPaid : St := { payments := [paymentPaid], nextID := 2, events := [], callbacks := [] }

def stFailedDelivery : St :=
  { payments := [paymentFailedDelivery], nextID := 2, events := [], callbacks := [] }

def stEmpty : St := { payments := [], nextID := 1, events := [], callbacks := [] }

def reqCb : HandleProviderCallbackRequest :=
  { provider := "stripe", callbackHash := "hash-1", signature := "sig", payload := "payload" }

def reqCbBad : HandleProviderCallbackRequest :=
  { provider := "paypal", callbackHash := "hash-1", signature := "sig", payload := "payload" }

def cfgFix : PaymentsConfig :=
  { callbackMaxAttempts := 3
    callbackRetryInterval := second
    callbackHTTPTimeout := second
    pendingTimeout := minute
    reconcileStaleAfter := minute
    jobBatchSize := 100 }

def reqCreate : CreatePaymentRequest :=
  { requestId := "req-9"
    callerService := "subs"
    resourceType := "subscription"
    resourceId := "sub-1"
    customerRef := ""
    amountCents := 1000
    currency := "usd"
    paymentMethod := 1
    paymentType := 1
    provider := 0
    recurringInterval := ""
    recurringIntervalCount := 0
    statusCallbackUrl := "https://caller/cb"
    successUrl := ""
    cancelUrl := ""
    metadata := [] }

/-- C1: the spec requires terminal statuses to be immutable, and flags the
source's overwrite as a bug.  The code at the failing input: a PAID payment
receiving a `customer.subscription.deleted` event mapped to CANCELED is
moved to CANCELED (stored and returned), and CancelPayment moves a FAILED
(terminal) payment to CANCELED. -/
theorem C1_terminal_status_overwritten :
    terminalStatus paymentPaid.status = true ∧
    statusOfOutcome (handleProviderCallback [stubSubDeleted] stPaid reqCb 100).outcome =
      some statusCanceled ∧
    ((findByID (handleProviderCallback [stubSubDeleted] stPaid reqCb 100).st.payments 1).map
      (fun p => p.status)) = some statusCanceled ∧
    terminalStatus paymentFailedDelivery.status = true ∧
    statusOfOutcome (cancelPayment stFailedDelivery 1 "dup" 100).1 = some statusCanceled := by
  decide

/-- C3 counterexample: a callback request whose provider tag is unknown is
answered with ProviderUnsupported and writes no PaymentCallback row at all,
so "exactly one row for every input" fails. -/
theorem C3_counterexample_no_row_for_unknown_tag :
    handleProviderCallback [stubPaid] stPending reqCbBad 100 =
      ⟨.error .providerUnsupported, stPending, 0⟩ ∧
    (handleProviderCallback [stubPaid] stPending reqCbBad 100).st.callbacks.length = 0 := by
  decide

/-- The PaymentCallback row written by persistRejectedCallback. -/
def rejectedRow (req : HandleProviderCallbackRequest) (paymentID : Option Nat)
    (reason : String) (now : Int) : PaymentCallback :=
  { paymentID := paymentID
    provider := lowerStr (trimSpace req.provider)
    callbackHash := trimSpace req.callbackHash
    signature := trimSpace req.signature
    payloadJSON := req.payload
    status := paymentCallbackStatusRejected
    error := some (truncate
      (if trimSpace reason == "" then "callback rejected" else trimSpace reason) 1024)
    createdAt := now
    updatedAt := now }

theorem persistRejectedCallback_eq (st : St) (paymentID : Option Nat)
    (req : HandleProviderCallbackRequest) (reason : String) (now : Int) :
    persistRejectedCallback st paymentID req reason now =
      addCallback st (rejectedRow req paymentID reason now) :=
  rfl

/-- C3 amended: every inbound callback that passes provider resolution
produces exactly one PaymentCallback row — REJECTED with a null payment_id
and a non-empty error when verification fails, the event is nil, or no
payment matches the hash; PROCESSED pointing at the payment on success.  A
request whose provider tag is unknown (or whose provider is not registered)
returns ProviderUnsupported before verification, with no row written. -/
theorem C3_one_callback_row_after_resolution (reg : List ProviderImpl) (st : St)
    (req : HandleProviderCallbackRequest) (now : Int) :
    ((handleProviderCallback reg st req now).st = st ∧
      (handleProviderCallback reg st req now).outcome = .error .providerUnsupported ∧
      (handleProviderCallback reg st req now).verifyCalls = 0) ∨
    (∃ c, (handleProviderCallback reg st req now).st.callbacks = st.callbacks ++ [c] ∧
      ((∃ e, (handleProviderCallback reg st req now).outcome = .error e ∧
          (e = ServiceErr.callbackRejected ∨ e = ServiceErr.paymentNotFound) ∧
          c.status = paymentCallbackStatusRejected ∧ c.paymentID = none ∧
          ∃ m, c.error = some m ∧ m ≠ "") ∨
        (∃ p, (handleProviderCallback reg st req now).outcome = .ok p ∧
          c.status = paymentCallbackStatusProcessed ∧ c.paymentID = some p.id ∧
          c.error = none))) := by
  rcases hp : parseProviderCode req.provider with _ | code
  · rw [handle_eq_of_parse_none reg st req now hp]
    exact .inl ⟨rfl, rfl, rfl⟩
  rcases hr : registryGet reg code with _ | client
  · rw [handle_eq_of_registry_none reg st req now code hp hr]
    exact .inl ⟨rfl, rfl, rfl⟩
  rcases hv : client.verifyAndParseCallback req.payload (trimSpace req.signature)
    with e | _ | ev
  · rw [handle_eq_of_verify_error reg st req now code client e hp hr hv]
    exact .inr ⟨rejectedRow req none ("provider callback validation failed: " ++ e) now, rfl,
      .inl ⟨.callbackRejected, rfl, .inl rfl, rfl, rfl, _, rfl,
        truncate_ne_empty _ (persistReason_ne_empty _)⟩⟩
  · rw [handle_eq_of_verify_nil reg st req now code client hp hr hv]
    exact .inr ⟨rejectedRow req none "provider callback payload could not be parsed" now, rfl,
      .inl ⟨.callbackRejected, rfl, .inl rfl, rfl, rfl, _, rfl,
        truncate_ne_empty _ (persistReason_ne_empty _)⟩⟩
  rcases hf : findByCallbackHash st.payments code (trimSpace req.callbackHash) with _ | found
  · rw [handle_eq_of_payment_none reg st req now code client ev hp hr hv hf]
    exact .inr ⟨rejectedRow req none "payment not found for callback hash" now, rfl,
      .inl ⟨.paymentNotFound, rfl, .inr rfl, rfl, rfl, _, rfl,
        truncate_ne_empty _ (persistReason_ne_empty _)⟩⟩
  · rw [handle_found_eq reg st req now code client ev found hp hr hv hf]
    exact .inr ⟨_, rfl, .inr ⟨_, rfl, rfl, rfl, rfl⟩⟩

/-- C9 counterexample: replaying the same mapped event does change the
Payment after the first application: the second call bumps `updated_at` (and
persists it), so the payment is not left unchanged. -/
theorem C9_counterexample_updatedAt_bumped :
    (findByID (handleProviderCallback [stubPaid]
        (handleProviderCallback [stubPaid] stPending reqCb 100).st reqCb 200).st.payments 1) ≠
      (findByID (handleProviderCallback [stubPaid] stPending reqCb 100).st.payments 1) ∧
    ((findByID (handleProviderCallback [stubPaid]
        (handleProviderCallback [stubPaid] stPending reqCb 100).st reqCb 200).st.payments 1).map
      (fun p => p.updatedAt)) = some 200 ∧
    ((findByID (handleProviderCallback [stubPaid] stPending reqCb 100).st.payments 1).map
      (fun p => p.updatedAt)) = some 100 := by
  decide

/-- C10: the provider route tag is trimmed and lowercased before matching;
"stripe" and "1" resolve to the Stripe code; any other tag makes
HandleProviderCallback return ProviderUnsupported with the state untouched,
before signature verification and before any PaymentCallback row. -/
theorem C10_provider_tag_routing :
    (∀ s, parseProviderCode s = some providerTypeStripe ↔
      (lowerStr (trimSpace s) = "stripe" ∨ lowerStr (trimSpace s) = "1")) ∧
    parseProviderCode tagStripe = some providerTypeStripe ∧
    parseProviderCode tagOne = some providerTypeStripe ∧
    (∀ reg st req now, parseProviderCode req.provider = none →
      handleProviderCallback reg st req now = ⟨.error .providerUnsupported, st, 0⟩) := by
  refine ⟨?_, by decide, by decide, ?_⟩
  · intro s
    unfold parseProviderCode
    by_cases h : (lowerStr (trimSpace s) == "stripe" || lowerStr (trimSpace s) == "1") = true
    · rw [if_pos h]
      simp only [Bool.or_eq_true, beq_iff_eq] at h
      simp [h]
    · rw [if_neg h]
      simp only [Bool.or_eq_true, beq_iff_eq] at h
      push_neg at h
      simp [h.1, h.2]
  · intro reg st req now h
    unfold handleProviderCallback
    rw [h]

/-- C10 witness: a concrete unknown tag is rejected before verification and
before any row is written. -/
theorem C10_provider_tag_routing_witness :
    handleProviderCallback [stubPaid] stPending reqCbBad 100 =
      ⟨.error .providerUnsupported, stPending, 0⟩ :=
  C10_provider_tag_routing.2.2.2 [stubPaid] stPending reqCbBad 100 (by decide)

/-- C5: the CancelPayment contract: missing id yields PaymentNotFound; a
PAID payment yields InvalidStatus whose message contains "paid payments
cannot be canceled"; otherwise the status becomes CANCELED, delivery is
armed, `updated_at` is bumped, the update is persisted, exactly one
payment_canceled event carrying old_status is emitted, and (cancelPayment
takes no provider argument) no provider call is made. -/
theorem C5_cancel_contract :
    (∀ st id reason now, findByID st.payments id = none →
      cancelPayment st id reason now = (.error .paymentNotFound, st)) ∧
    (∀ st id reason now p, findByID st.payments id = some p → p.status = statusPaid →
      cancelPayment st id reason now =
        (.error (.invalidStatus "invalid status: paid payments cannot be canceled"), st)) ∧
    containsSubstr "invalid status: paid payments cannot be canceled"
      "paid payments cannot be canceled" ∧
    (∀ st id reason now p, uniqueIDs st.payments →
      findByID st.payments id = some p → p.status ≠ statusPaid →
      ∃ q, (cancelPayment st id reason now).1 = .ok q ∧
        q.status = statusCanceled ∧ armedForDelivery q now = true ∧ q.updatedAt = now ∧
        q.id = p.id ∧
        findByID (cancelPayment st id reason now).2.payments id = some q ∧
        (cancelPayment st id reason now).2.events = st.events ++
          [{ paymentID := q.id
             eventType := "payment_canceled"
             oldStatus := some p.status
             newStatus := statusCanceled
             providerEventID := none
             payloadJSON := none
             createdAt := now }] ∧
        (cancelPayment st id reason now).2.callbacks = st.callbacks) := by
  refine ⟨?_, ?_, by decide, ?_⟩
  · intro st id reason now hf
    simp only [cancelPayment, hf]
  · intro st id reason now p hf hp
    have hb : (p.status == statusPaid) = true := by simpa using hp
    simp only [cancelPayment, hf, hb, if_true]
  · intro st id reason now p huniq hf hstat
    have hb : (p.status == statusPaid) = false := by simpa using hstat
    have hmem := mem_of_find?_key hf
    have hf' : st.payments.find? (fun r => r.id == id) = some p := hf
    have hkeyp : (fun r => r.id == id) p = true := by
      have hx := List.find?_some hf'
      simpa using hx
    have hany : st.payments.any (fun r =>
        r.id == ({ markForCallbackDelivery { p with status := statusCanceled } now with
          updatedAt := now } : Payment).id) = true :=
      any_id_of_mem hmem rfl
    have hcancel : cancelPayment st id reason now =
        (.ok ({ markForCallbackDelivery { p with status := statusCanceled } now with
            updatedAt := now } : Payment),
          addEvent
            { st with payments := st.payments.map (fun r =>
                if r.id == ({ markForCallbackDelivery { p with status := statusCanceled } now with
                    updatedAt := now } : Payment).id then
                  { markForCallbackDelivery { p with status := statusCanceled } now with
                    updatedAt := now }
                else r) }
            { paymentID := p.id
              eventType := "payment_canceled"
              oldStatus := some p.status
              newStatus := statusCanceled
              providerEventID := none
              payloadJSON := none
              createdAt := now }) := by
      simp only [cancelPayment, hf, hb, Bool.false_eq_true, if_false]
      rw [repoUpdate_ok st _ hany]
      rfl
    refine ⟨{ markForCallbackDelivery { p with status := statusCanceled } now with
        updatedAt := now }, ?_, rfl, by simp [armedForDelivery, markForCallbackDelivery], rfl,
      rfl, ?_, ?_, ?_⟩
    · rw [hcancel]
    · rw [hcancel]
      exact find?_map_replace (fun r => r.id == id) st.payments p _ hf rfl hkeyp huniq
    · rw [hcancel]
      exact rfl
    · rw [hcancel]
      exact rfl

def reasonDup : String := "dup"

/-- C5 witness: the three contract branches at concrete inputs. -/
theorem C5_cancel_contract_witness :
    cancelPayment stEmpty 1 reasonDup 100 = (.error .paymentNotFound, stEmpty) ∧
    cancelPayment stPaid 1 reasonDup 100 =
      (.error (.invalidStatus "invalid status: paid payments cannot be canceled"), stPaid) ∧
    (∃ q, (cancelPayment stPending 1 reasonDup 100).1 = .ok q ∧
      q.status = statusCanceled ∧ armedForDelivery q 100 = true ∧ q.updatedAt = 100 ∧
      q.id = paymentPending.id ∧
      findByID (cancelPayment stPending 1 reasonDup 100).2.payments 1 = some q ∧
      (cancelPayment stPending 1 reasonDup 100).2.events = stPending.events ++
        [{ paymentID := q.id
           eventType := "payment_canceled"
           oldStatus := some paymentPending.status
           newStatus := statusCanceled
           providerEventID := none
           payloadJSON := none
           createdAt := 100 }] ∧
      (cancelPayment stPending 1 reasonDup 100).2.callbacks = stPending.callbacks) :=
  ⟨C5_cancel_contract.1 stEmpty 1 reasonDup 100 (by decide),
   C5_cancel_contract.2.1 stPaid 1 reasonDup 100 paymentPaid (by decide) (by decide),
   C5_cancel_contract.2.2.2 stPending 1 reasonDup 100 paymentPending (by decide) (by decide)
     (by decide)⟩

/-- C2: CreatePayment is idempotent on the (caller_service, request_id)
key: after a successful call, a second call with the same trimmed key
returns the very same stored payment (same id, identical contents), changes
no state (no new payment row, no new payment_created event), and performs
zero Provider.CreatePayment calls. -/
theorem C2_create_idempotent (reg : List ProviderImpl) (st st1 : St)
    (req req2 : CreatePaymentRequest) (freshHash fresh2 : String) (now now2 : Int)
    (p : Payment) (n : Nat)
    (h1 : createPayment reg st req freshHash now = ⟨.ok p, st1, n⟩)
    (hcs : trimSpace req2.callerService = trimSpace req.callerService)
    (hrid : trimSpace req2.requestId = trimSpace req.requestId) :
    createPayment reg st1 req2 fresh2 now2 = ⟨.ok p, st1, 0⟩ := by
  by_cases hg : (trimSpace req.requestId == "" || trimSpace req.callerService == "") = true
  · simp only [createPayment, hg, if_true] at h1
    simp at h1
  · have hg' : (trimSpace req.requestId == "" || trimSpace req.callerService == "") = false := by
      simpa using hg
    have hg2 : (trimSpace req2.requestId == "" || trimSpace req2.callerService == "") = false := by
      rw [hrid, hcs]; exact hg'
    simp only [createPayment, hg', Bool.false_eq_true, if_false] at h1
    rcases hfind : findByCallerRequestID st.payments (trimSpace req.callerService)
        (trimSpace req.requestId) with _ | existing
    · rw [hfind] at h1
      split at h1
      next existing2 heq => exact absurd heq (by simp)
      next heq =>
        clear heq
        split at h1
        next hreg => simp at h1
        next client hreg =>
          split at h1
          next e hout => simp at h1
          next out hout =>
            split at h1
            next e2 hcr => simp at h1
            next st2 assigned hcr =>
              simp only [CreateResult.mk.injEq, Except.ok.injEq] at h1
              obtain ⟨hp, hst, hn⟩ := h1
              subst hp
              unfold repoCreate at hcr
              split at hcr <;> split at hcr <;> split at hcr <;> simp at hcr <;>
                (obtain ⟨hst2, hassigned⟩ := hcr
                 subst hst2
                 subst hassigned
                 subst hst
                 simp only [createPayment, hg2, Bool.false_eq_true, if_false]
                 rw [hcs, hrid]
                 unfold findByCallerRequestID addEvent
                 dsimp only
                 rw [List.find?_cons_of_pos _ (by simp [markForCallbackDelivery])])
    · rw [hfind] at h1
      simp only [CreateResult.mk.injEq, Except.ok.injEq] at h1
      obtain ⟨hp, hst, hn⟩ := h1
      subst hp
      subst hst
      simp only [createPayment, hg2, Bool.false_eq_true, if_false]
      rw [hcs, hrid, hfind]


def hash9 : String := "hash-9"

def hash9b : String := "hash-9b"

def c2Payment : Payment :=
  (createPayment [stubPaid] stEmpty reqCreate hash9 50).outcome.toOption.iget

/-- C2 witness: the replayed concrete request returns the stored payment and
leaves the state untouched with zero provider calls. -/
theorem C2_create_idempotent_witness :
    createPayment [stubPaid] (createPayment [stubPaid] stEmpty reqCreate hash9 50).st
        reqCreate hash9b 60 =
      ⟨.ok c2Payment, (createPayment [stubPaid] stEmpty reqCreate hash9 50).st, 0⟩ :=
  C2_create_idempotent [stubPaid] stEmpty ((createPayment [stubPaid] stEmpty reqCreate hash9 50).st)
    reqCreate reqCreate hash9 hash9b 50 60 c2Payment 1 (by decide) rfl rfl

/-- C7: dispatching a payment whose status_callback_url is empty records a
terminal delivery failure (FAILED, next_at NULL, the fixed error message),
bumps updated_at, persists the update, emits no event, and returns no error
to the batch. -/
theorem C7_dispatch_empty_url (cfg : PaymentsConfig) (st : St) (payment : Payment) (now : Int)
    (httpResult : HTTPResult)
    (hurl : payment.statusCallbackURL = "")
    (huniq : uniqueIDs st.payments)
    (hf : findByID st.payments payment.id = some payment) :
    (dispatchCallback cfg st payment now httpResult).2 = none ∧
    (dispatchCallback cfg st payment now httpResult).1.events = st.events ∧
    (dispatchCallback cfg st payment now httpResult).1.callbacks = st.callbacks ∧
    findByID (dispatchCallback cfg st payment now httpResult).1.payments payment.id =
      some { payment with
        callbackDeliveryStatus := callbackDeliveryFailed
        callbackDeliveryNextAt := none
        callbackDeliveryLastErr := some "status_callback_url is empty"
        updatedAt := now } := by
  have hcond : (trimSpace payment.statusCallbackURL == "") = true := by
    rw [hurl]; decide
  have hmem := mem_of_find?_key hf
  have hany : st.payments.any (fun r =>
      r.id == ({ payment with
        callbackDeliveryStatus := callbackDeliveryFailed
        callbackDeliveryNextAt := none
        callbackDeliveryLastErr := some "status_callback_url is empty"
        updatedAt := now } : Payment).id) = true :=
    any_id_of_mem hmem rfl
  have hdisp : dispatchCallback cfg st payment now httpResult =
      ({ st with payments := st.payments.map (fun r =>
          if r.id == ({ payment with
              callbackDeliveryStatus := callbackDeliveryFailed
              callbackDeliveryNextAt := none
              callbackDeliveryLastErr := some "status_callback_url is empty"
              updatedAt := now } : Payment).id then
            { payment with
              callbackDeliveryStatus := callbackDeliveryFailed
              callbackDeliveryNextAt := none
              callbackDeliveryLastErr := some "status_callback_url is empty"
              updatedAt := now }
          else r) }, none) := by
    simp only [dispatchCallback, hcond, if_true]
    rw [repoUpdate_ok st _ hany]
  refine ⟨?_, ?_, ?_, ?_⟩
  · rw [hdisp]
  · rw [hdisp]
  · rw [hdisp]
  · rw [hdisp]
    exact find?_map_replace (fun r => r.id == payment.id) st.payments payment _ hf rfl
      (by simp) huniq

def paymentNoURL : Payment :=
  { paymentPending with
    status := statusPaid
    statusCallbackURL := ""
    callbackDeliveryStatus := callbackDeliveryPending
    callbackDeliveryNextAt := some 0 }

def stNoURL : St := { payments := [paymentNoURL], nextID := 2, events := [], callbacks := [] }

/-- C7 witness at a concrete armed payment with an empty callback URL. -/
theorem C7_dispatch_empty_url_witness :
    (dispatchCallback cfgFix stNoURL paymentNoURL 100 (.response 200)).2 = none ∧
    (dispatchCallback cfgFix stNoURL paymentNoURL 100 (.response 200)).1.events =
      stNoURL.events ∧
    (dispatchCallback cfgFix stNoURL paymentNoURL 100 (.response 200)).1.callbacks =
      stNoURL.callbacks ∧
    findByID (dispatchCallback cfgFix stNoURL paymentNoURL 100 (.response 200)).1.payments
        paymentNoURL.id =
      some { paymentNoURL with
        callbackDeliveryStatus := callbackDeliveryFailed
        callbackDeliveryNextAt := none
        callbackDeliveryLastErr := some "status_callback_url is empty"
        updatedAt := 100 } :=
  C7_dispatch_empty_url cfgFix stNoURL paymentNoURL 100 (.response 200) (by decide) (by decide)
    (by decide)

/-- C6: a failed outbound attempt (transport error or non-2xx response)
goes through recordDispatchFailure, which increments the attempt counter,
stores the error truncated to 1024, turns the delivery FAILED with next_at
NULL at callback_max_attempts (floored at 1) and otherwise re-schedules
PENDING at now + callback_retry_interval (5 minutes when unconfigured),
emits one callback_dispatch_failed event, and returns the original error. -/
theorem C6_dispatch_failure_bookkeeping :
    (∀ cfg st payment now msg, (trimSpace payment.statusCallbackURL == "") = false →
      dispatchCallback cfg st payment now (.transportError msg) =
        recordDispatchFailure cfg st payment now msg) ∧
    (∀ cfg st payment now sc, (trimSpace payment.statusCallbackURL == "") = false →
      (sc < 200 ∨ sc ≥ 300) →
      dispatchCallback cfg st payment now (.response sc) =
        recordDispatchFailure cfg st payment now
          ("callback endpoint returned status=" ++ toString sc)) ∧
    (∀ cfg st payment now msg, uniqueIDs st.payments →
      findByID st.payments payment.id = some payment →
      ∃ q, (recordDispatchFailure cfg st payment now msg).2 = some (.failure msg) ∧
        (recordDispatchFailure cfg st payment now msg).1.events = st.events ++
          [{ paymentID := payment.id
             eventType := "callback_dispatch_failed"
             oldStatus := none
             newStatus := payment.status
             providerEventID := none
             payloadJSON := none
             createdAt := now }] ∧
        (recordDispatchFailure cfg st payment now msg).1.callbacks = st.callbacks ∧
        findByID (recordDispatchFailure cfg st payment now msg).1.payments payment.id =
          some q ∧
        q.callbackDeliveryAttempts = payment.callbackDeliveryAttempts + 1 ∧
        q.callbackDeliveryLastErr = some (truncate msg 1024) ∧
        q.updatedAt = now ∧ q.status = payment.status ∧
        (payment.callbackDeliveryAttempts + 1 ≥
            (if cfg.callbackMaxAttempts ≤ 0 then 1 else cfg.callbackMaxAttempts) →
          q.callbackDeliveryStatus = callbackDeliveryFailed ∧
          q.callbackDeliveryNextAt = none) ∧
        (payment.callbackDeliveryAttempts + 1 <
            (if cfg.callbackMaxAttempts ≤ 0 then 1 else cfg.callbackMaxAttempts) →
          q.callbackDeliveryStatus = callbackDeliveryPending ∧
          q.callbackDeliveryNextAt = some (now +
            (if cfg.callbackRetryInterval ≤ 0 then 5 * minute else cfg.callbackRetryInterval)))) := by
  refine ⟨?_, ?_, ?_⟩
  · intro cfg st payment now msg hcond
    simp only [dispatchCallback, hcond, Bool.false_eq_true, if_false]
  · intro cfg st payment now sc hcond hsc
    have hb : (decide (sc < 200) || decide (sc ≥ 300)) = true := by
      rcases hsc with h | h <;> simp [h]
    simp only [dispatchCallback, hcond, Bool.false_eq_true, if_false, hb, if_true]
  · intro cfg st payment now msg huniq hf
    have hmem := mem_of_find?_key hf
    by_cases hge : payment.callbackDeliveryAttempts + 1 ≥
        (if cfg.callbackMaxAttempts ≤ 0 then 1 else cfg.callbackMaxAttempts)
    · have hany : st.payments.any (fun r =>
          r.id == ({ payment with
            callbackDeliveryAttempts := payment.callbackDeliveryAttempts + 1
            callbackDeliveryLastErr := some (truncate msg 1024)
            callbackDeliveryStatus := callbackDeliveryFailed
            callbackDeliveryNextAt := none
            updatedAt := now } : Payment).id) = true :=
        any_id_of_mem hmem rfl
      have hrec : recordDispatchFailure cfg st payment now msg =
          (addEvent
            { st with payments := st.payments.map (fun r =>
                if r.id == ({ payment with
                    callbackDeliveryAttempts := payment.callbackDeliveryAttempts + 1
                    callbackDeliveryLastErr := some (truncate msg 1024)
                    callbackDeliveryStatus := callbackDeliveryFailed
                    callbackDeliveryNextAt := none
                    updatedAt := now } : Payment).id then
                  { payment with
                    callbackDeliveryAttempts := payment.callbackDeliveryAttempts + 1
                    callbackDeliveryLastErr := some (truncate msg 1024)
                    callbackDeliveryStatus := callbackDeliveryFailed
                    callbackDeliveryNextAt := none
                    updatedAt := now }
                else r) }
            { paymentID := payment.id
              eventType := "callback_dispatch_failed"
              oldStatus := none
              newStatus := payment.status
              providerEventID := none
              payloadJSON := none
              createdAt := now }, some (.failure msg)) := by
        simp only [recordDispatchFailure]
        dsimp only
        rw [if_pos hge]
        rw [repoUpdate_ok st _ hany]
      refine ⟨{ payment with
          callbackDeliveryAttempts := payment.callbackDeliveryAttempts + 1
          callbackDeliveryLastErr := some (truncate msg 1024)
          callbackDeliveryStatus := callbackDeliveryFailed
          callbackDeliveryNextAt := none
          updatedAt := now }, ?_, ?_, ?_, ?_, rfl, rfl, rfl, rfl, fun _ => ⟨rfl, rfl⟩,
        fun hlt => absurd hge (not_le.mpr hlt)⟩
      · rw [hrec]
      · rw [hrec]; exact rfl
      · rw [hrec]; exact rfl
      · rw [hrec]
        exact find?_map_replace (fun r => r.id == payment.id) st.payments payment _ hf rfl
          (by simp) huniq
    · have hlt' : ¬ ({ payment with
          callbackDeliveryAttempts := payment.callbackDeliveryAttempts + 1
          callbackDeliveryLastErr := some (truncate msg 1024) } : Payment).callbackDeliveryAttempts ≥
          (if cfg.callbackMaxAttempts ≤ 0 then 1 else cfg.callbackMaxAttempts) := hge
      have hany : st.payments.any (fun r =>
          r.id == ({ payment with
            callbackDeliveryAttempts := payment.callbackDeliveryAttempts + 1
            callbackDeliveryLastErr := some (truncate msg 1024)
            callbackDeliveryStatus := callbackDeliveryPending
            callbackDeliveryNextAt := some (now +
              (if cfg.callbackRetryInterval ≤ 0 then 5 * minute else cfg.callbackRetryInterval))
            updatedAt := now } : Payment).id) = true :=
        any_id_of_mem hmem rfl
      have hrec : recordDispatchFailure cfg st payment now msg =
          (addEvent
            { st with payments := st.payments.map (fun r =>
                if r.id == ({ payment with
                    callbackDeliveryAttempts := payment.callbackDeliveryAttempts + 1
                    callbackDeliveryLastErr := some (truncate msg 1024)
                    callbackDeliveryStatus := callbackDeliveryPending
                    callbackDeliveryNextAt := some (now +
                      (if cfg.callbackRetryInterval ≤ 0 then 5 * minute
                       else cfg.callbackRetryInterval))
                    updatedAt := now } : Payment).id then
                  { payment with
                    callbackDeliveryAttempts := payment.callbackDeliveryAttempts + 1
                    callbackDeliveryLastErr := some (truncate msg 1024)
                    callbackDeliveryStatus := callbackDeliveryPending
                    callbackDeliveryNextAt := some (now +
                      (if cfg.callbackRetryInterval ≤ 0 then 5 * minute
                       else cfg.callbackRetryInterval))
                    updatedAt := now }
                else r) }
            { paymentID := payment.id
              eventType := "callback_dispatch_failed"
              oldStatus := none
              newStatus := payment.status
              providerEventID := none
              payloadJSON := none
              createdAt := now }, some (.failure msg)) := by
        simp only [recordDispatchFailure]
        dsimp only
        rw [if_neg hge]
        rw [repoUpdate_ok st _ hany]
      refine ⟨{ payment with
          callbackDeliveryAttempts := payment.callbackDeliveryAttempts + 1
          callbackDeliveryLastErr := some (truncate msg 1024)
          callbackDeliveryStatus := callbackDeliveryPending
          callbackDeliveryNextAt := some (now +
            (if cfg.callbackRetryInterval ≤ 0 then 5 * minute else cfg.callbackRetryInterval))
          updatedAt := now }, ?_, ?_, ?_, ?_, rfl, rfl, rfl, rfl,
        fun hge2 => absurd hge2 hge, fun _ => ⟨rfl, rfl⟩⟩
      · rw [hrec]
      · rw [hrec]; exact rfl
      · rw [hrec]; exact rfl
      · rw [hrec]
        exact find?_map_replace (fun r => r.id == payment.id) st.payments payment _ hf rfl
          (by simp) huniq

def msgBoom : String := "connection refused"

/-- C6 witness: a transport failure on a concrete armed payment goes through
the bookkeeping path. -/
theorem C6_dispatch_failure_bookkeeping_witness :
    (dispatchCallback cfgFix stPending paymentPending 100 (.transportError msgBoom) =
      recordDispatchFailure cfgFix stPending paymentPending 100 msgBoom) ∧
    (∃ q, (recordDispatchFailure cfgFix stPending paymentPending 100 msgBoom).2 =
        some (.failure msgBoom) ∧
      (recordDispatchFailure cfgFix stPending paymentPending 100 msgBoom).1.events =
        stPending.events ++
          [{ paymentID := paymentPending.id
             eventType := "callback_dispatch_failed"
             oldStatus := none
             newStatus := paymentPending.status
             providerEventID := none
             payloadJSON := none
             createdAt := 100 }] ∧
      (recordDispatchFailure cfgFix stPending paymentPending 100 msgBoom).1.callbacks =
        stPending.callbacks ∧
      findByID (recordDispatchFailure cfgFix stPending paymentPending 100 msgBoom).1.payments
          paymentPending.id = some q ∧
      q.callbackDeliveryAttempts = paymentPending.callbackDeliveryAttempts + 1 ∧
      q.callbackDeliveryLastErr = some (truncate msgBoom 1024) ∧
      q.updatedAt = 100 ∧ q.status = paymentPending.status ∧
      (paymentPending.callbackDeliveryAttempts + 1 ≥
          (if cfgFix.callbackMaxAttempts ≤ 0 then 1 else cfgFix.callbackMaxAttempts) →
        q.callbackDeliveryStatus = callbackDeliveryFailed ∧
        q.callbackDeliveryNextAt = none) ∧
      (paymentPending.callbackDeliveryAttempts + 1 <
          (if cfgFix.callbackMaxAttempts ≤ 0 then 1 else cfgFix.callbackMaxAttempts) →
        q.callbackDeliveryStatus = callbackDeliveryPending ∧
        q.callbackDeliveryNextAt = some (100 +
          (if cfgFix.callbackRetryInterval ≤ 0 then 5 * minute
           else cfgFix.callbackRetryInterval)))) :=
  ⟨C6_dispatch_failure_bookkeeping.1 cfgFix stPending paymentPending 100 msgBoom (by decide),
   C6_dispatch_failure_bookkeeping.2.2 cfgFix stPending paymentPending 100 msgBoom (by decide)
     (by decide)⟩

theorem reconciledPayment_id (payment : Payment) (v now : Int) :
    (reconciledPayment payment v now).id = payment.id := by
  unfold reconciledPayment markForCallbackDelivery
  dsimp only
  split <;> rfl

theorem reconciledPayment_status (payment : Payment) (v now : Int) :
    (reconciledPayment payment v now).status = v := by
  unfold reconciledPayment markForCallbackDelivery
  dsimp only
  split <;> rfl

theorem reconciledPayment_updatedAt (payment : Payment) (v now : Int) :
    (reconciledPayment payment v now).updatedAt = now :=
  rfl

theorem reconciledPayment_armed (payment : Payment) (v now : Int)
    (hterm : terminalStatus v = true) :
    armedForDelivery (reconciledPayment payment v now) now = true := by
  unfold reconciledPayment
  dsimp only
  rw [if_pos hterm]
  simp [armedForDelivery, markForCallbackDelivery]

theorem reconciledPayment_delivery_unchanged (payment : Payment) (v now : Int)
    (hterm : terminalStatus v = false) :
    (reconciledPayment payment v now).callbackDeliveryStatus
        = payment.callbackDeliveryStatus ∧
    (reconciledPayment payment v now).callbackDeliveryAttempts
        = payment.callbackDeliveryAttempts ∧
    (reconciledPayment payment v now).callbackDeliveryNextAt
        = payment.callbackDeliveryNextAt ∧
    (reconciledPayment payment v now).callbackDeliveryLastErr
        = payment.callbackDeliveryLastErr := by
  unfold reconciledPayment
  dsimp only
  rw [if_neg (by simp [hterm])]
  exact ⟨rfl, rfl, rfl, rfl⟩

/-- The state written by the reconcile loop body when the provider reports a
fresh status. -/
theorem reconcileOne_update_eq (reg : List ProviderImpl) (st : St) (payment : Payment)
    (now : Int) (pid : String) (client : ProviderImpl) (v : Int)
    (hpid : payment.providerPaymentID = some pid)
    (hblank : (trimSpace pid == "") = false)
    (hreg : registryGet reg payment.provider = some client)
    (hget : client.getPaymentStatus (trimSpace pid) = .ok v)
    (hv0 : v ≠ 0) (hvs : v ≠ payment.status)
    (hany : st.payments.any (fun r => r.id == (reconciledPayment payment v now).id) = true) :
    reconcileOne reg st payment now =
      (addEvent
        { st with payments := st.payments.map (fun r =>
            if r.id == (reconciledPayment payment v now).id then
              reconciledPayment payment v now
            else r) }
        { paymentID := (reconciledPayment payment v now).id
          eventType := "payment_reconciled"
          oldStatus := some payment.status
          newStatus := v
          providerEventID := none
          payloadJSON := none
          createdAt := now }, none) := by
  have hb : (v == 0 || v == payment.status) = false := by
    simp [hv0, hvs]
  simp only [reconcileOne, hpid, hblank, Bool.false_eq_true, if_false, hreg, hget, hb]
  rw [repoUpdate_ok st _ hany]

/-- C8: for every payment the reconcile batch processes, a provider report
of 0 or of the unchanged status leaves state untouched; a fresh status is
written with delivery armed when terminal, and one payment_reconciled event
carrying old_status is emitted. -/
theorem C8_reconcile_contract :
    (∀ reg st payment now pid client v,
      payment.providerPaymentID = some pid → (trimSpace pid == "") = false →
      registryGet reg payment.provider = some client →
      client.getPaymentStatus (trimSpace pid) = .ok v →
      (v = 0 ∨ v = payment.status) →
      reconcileOne reg st payment now = (st, none)) ∧
    (∀ reg st payment now pid client v,
      payment.providerPaymentID = some pid → (trimSpace pid == "") = false →
      registryGet reg payment.provider = some client →
      client.getPaymentStatus (trimSpace pid) = .ok v →
      v ≠ 0 → v ≠ payment.status →
      uniqueIDs st.payments → findByID st.payments payment.id = some payment →
      (reconcileOne reg st payment now).2 = none ∧
      (reconcileOne reg st payment now).1.events = st.events ++
        [{ paymentID := payment.id
           eventType := "payment_reconciled"
           oldStatus := some payment.status
           newStatus := v
           providerEventID := none
           payloadJSON := none
           createdAt := now }] ∧
      (reconcileOne reg st payment now).1.callbacks = st.callbacks ∧
      findByID (reconcileOne reg st payment now).1.payments payment.id =
        some (reconciledPayment payment v now) ∧
      (reconciledPayment payment v now).status = v ∧
      (reconciledPayment payment v now).updatedAt = now ∧
      (terminalStatus v = true →
        armedForDelivery (reconciledPayment payment v now) now = true) ∧
      (terminalStatus v = false →
        (reconciledPayment payment v now).callbackDeliveryStatus
            = payment.callbackDeliveryStatus ∧
        (reconciledPayment payment v now).callbackDeliveryAttempts
            = payment.callbackDeliveryAttempts ∧
        (reconciledPayment payment v now).callbackDeliveryNextAt
            = payment.callbackDeliveryNextAt ∧
        (reconciledPayment payment v now).callbackDeliveryLastErr
            = payment.callbackDeliveryLastErr)) := by
  constructor
  · intro reg st payment now pid client v hpid hblank hreg hget hv
    have hb : (v == 0 || v == payment.status) = true := by
      rcases hv with h | h <;> simp [h]
    simp only [reconcileOne, hpid, hblank, Bool.false_eq_true, if_false, hreg, hget, hb,
      if_true]
  · intro reg st payment now pid client v hpid hblank hreg hget hv0 hvs huniq hf
    have hmem := mem_of_find?_key hf
    have hany : st.payments.any (fun r =>
        r.id == (reconciledPayment payment v now).id) = true :=
      any_id_of_mem hmem (reconciledPayment_id payment v now).symm
    have hrec := reconcileOne_update_eq reg st payment now pid client v hpid hblank hreg hget
      hv0 hvs hany
    refine ⟨?_, ?_, ?_, ?_, reconciledPayment_status payment v now,
      reconciledPayment_updatedAt payment v now, reconciledPayment_armed payment v now,
      reconciledPayment_delivery_unchanged payment v now⟩
    · rw [hrec]
    · rw [hrec]
      simp only [addEvent, reconciledPayment_id]
    · rw [hrec]; exact rfl
    · rw [hrec]
      have hkey : ((fun r => r.id == payment.id) (reconciledPayment payment v now)) = true := by
        simp [reconciledPayment_id]
      exact find?_map_replace (fun r => r.id == payment.id) st.payments payment _ hf
        (reconciledPayment_id payment v now) hkey huniq

def pidCs1 : String := "cs_1"

/-- C8 witness: a stale PENDING payment whose provider reports PAID is
written with the new status and armed; the same provider reporting the
unchanged status leaves a PAID payment untouched. -/
theorem C8_reconcile_contract_witness :
    reconcileOne [stubPaid] stPaid paymentPaid 100 = (stPaid, none) ∧
    ((reconcileOne [stubPaid] stPending paymentPending 100).2 = none ∧
      (reconcileOne [stubPaid] stPending paymentPending 100).1.events = stPending.events ++
        [{ paymentID := paymentPending.id
           eventType := "payment_reconciled"
           oldStatus := some paymentPending.status
           newStatus := statusPaid
           providerEventID := none
           payloadJSON := none
           createdAt := 100 }] ∧
      (reconcileOne [stubPaid] stPending paymentPending 100).1.callbacks =
        stPending.callbacks ∧
      findByID (reconcileOne [stubPaid] stPending paymentPending 100).1.payments
          paymentPending.id = some (reconciledPayment paymentPending statusPaid 100) ∧
      (reconciledPayment paymentPending statusPaid 100).status = statusPaid ∧
      (reconciledPayment paymentPending statusPaid 100).updatedAt = 100 ∧
      (terminalStatus statusPaid = true →
        armedForDelivery (reconciledPayment paymentPending statusPaid 100) 100 = true) ∧
      (terminalStatus statusPaid = false →
        (reconciledPayment paymentPending statusPaid 100).callbackDeliveryStatus
            = paymentPending.callbackDeliveryStatus ∧
        (reconciledPayment paymentPending statusPaid 100).callbackDeliveryAttempts
            = paymentPending.callbackDeliveryAttempts ∧
        (reconciledPayment paymentPending statusPaid 100).callbackDeliveryNextAt
            = paymentPending.callbackDeliveryNextAt ∧
        (reconciledPayment paymentPending statusPaid 100).callbackDeliveryLastErr
            = paymentPending.callbackDeliveryLastErr)) :=
  ⟨C8_reconcile_contract.1 [stubPaid] stPaid paymentPaid 100 pidCs1 stubPaid statusPaid
      (by decide) (by decide) rfl rfl (.inr (by decide)),
   C8_reconcile_contract.2 [stubPaid] stPending paymentPending 100 pidCs1 stubPaid statusPaid
      (by decide) (by decide) rfl rfl (by decide) (by decide) (by decide) (by decide)⟩

theorem expiredPayment_id (payment : Payment) (now : Int) :
    (expiredPayment payment now).id = payment.id :=
  rfl

theorem expiredPayment_status (payment : Payment) (now : Int) :
    (expiredPayment payment now).status = statusExpired :=
  rfl

theorem expiredPayment_armed (payment : Payment) (now : Int) :
    armedForDelivery (expiredPayment payment now) now = true := by
  simp [expiredPayment, markForCallbackDelivery, armedForDelivery]

/-- The state written by the expire loop body on a non-EXPIRED payment. -/
theorem expireOne_update_eq (st : St) (payment : Payment) (now : Int)
    (hne : (payment.status == statusExpired) = false)
    (hany : st.payments.any (fun r => r.id == (expiredPayment payment now).id) = true) :
    expireOne st payment now =
      (addEvent
        { st with payments := st.payments.map (fun r =>
            if r.id == (expiredPayment payment now).id then expiredPayment payment now
            else r) }
        { paymentID := (expiredPayment payment now).id
          eventType := "payment_expired"
          oldStatus := some payment.status
          newStatus := (expiredPayment payment now).status
          providerEventID := none
          payloadJSON := none
          createdAt := now }, none) := by
  simp only [expireOne, hne, Bool.false_eq_true, if_false]
  rw [repoUpdate_ok st _ hany]

/-- A status change into terminal arms the delivery sub-state. -/
theorem applyCallbackEvent_armed_of_changed (p : Payment) (ev : CallbackEvent) (now : Int)
    (hchanged : (applyCallbackEvent p ev now).status ≠ p.status)
    (hterm : terminalStatus (applyCallbackEvent p ev now).status = true) :
    armedForDelivery (applyCallbackEvent p ev now) now = true := by
  rw [applyCallbackEvent_status] at hchanged hterm
  by_cases hns : ev.newStatus > 0
  · rw [if_pos hns] at hchanged hterm
    have hbne : (ev.newStatus != p.status) = true := bne_iff_ne.mpr hchanged
    unfold applyCallbackEvent markForCallbackDelivery armedForDelivery
    cases ev.providerPaymentID <;> cases ev.providerSubscriptionID <;>
      dsimp only <;>
      rw [if_pos hns] <;>
      simp [hbne, hterm]
  · rw [if_neg hns] at hchanged
    exact absurd rfl hchanged

/-- C4: every transition into a terminal status arms the delivery
sub-state (PENDING, attempts 0, next_at = now, last_err NULL): on creation
with a terminal initial status, on cancel, on a provider callback that
changes the status into terminal, on reconcile into terminal, and on
expiry. -/
theorem C4_terminal_armament :
    (∀ reg st req freshHash now p st1,
      createPayment reg st req freshHash now = ⟨.ok p, st1, 1⟩ →
      terminalStatus p.status = true → armedForDelivery p now = true) ∧
    (∀ st id reason now p st1,
      cancelPayment st id reason now = (.ok p, st1) → armedForDelivery p now = true) ∧
    (∀ reg st req now code client ev found,
      parseProviderCode req.provider = some code →
      registryGet reg code = some client →
      client.verifyAndParseCallback req.payload (trimSpace req.signature) = .ok (some ev) →
      findByCallbackHash st.payments code (trimSpace req.callbackHash) = some found →
      (applyCallbackEvent found ev now).status ≠ found.status →
      terminalStatus (applyCallbackEvent found ev now).status = true →
      (handleProviderCallback reg st req now).outcome = .ok (applyCallbackEvent found ev now) ∧
      armedForDelivery (applyCallbackEvent found ev now) now = true) ∧
    (∀ reg st payment now pid client v,
      payment.providerPaymentID = some pid → (trimSpace pid == "") = false →
      registryGet reg payment.provider = some client →
      client.getPaymentStatus (trimSpace pid) = .ok v →
      v ≠ 0 → v ≠ payment.status → terminalStatus v = true →
      uniqueIDs st.payments → findByID st.payments payment.id = some payment →
      findByID (reconcileOne reg st payment now).1.payments payment.id =
        some (reconciledPayment payment v now) ∧
      armedForDelivery (reconciledPayment payment v now) now = true) ∧
    (∀ st payment now,
      (payment.status == statusExpired) = false →
      uniqueIDs st.payments → findByID st.payments payment.id = some payment →
      findByID (expireOne st payment now).1.payments payment.id =
        some (expiredPayment payment now) ∧
      (expiredPayment payment now).status = statusExpired ∧
      armedForDelivery (expiredPayment payment now) now = true) := by
  refine ⟨?_, ?_, ?_, ?_, ?_⟩
  · intro reg st req freshHash now p st1 h1 hterm
    by_cases hg : (trimSpace req.requestId == "" || trimSpace req.callerService == "") = true
    · simp only [createPayment, hg, if_true] at h1
      simp at h1
    · have hg' : (trimSpace req.requestId == "" || trimSpace req.callerService == "")
          = false := by simpa using hg
      simp only [createPayment, hg', Bool.false_eq_true, if_false] at h1
      rcases hfind : findByCallerRequestID st.payments (trimSpace req.callerService)
          (trimSpace req.requestId) with _ | existing
      · rw [hfind] at h1
        split at h1
        next existing2 heq => exact absurd heq (by simp)
        next heq =>
          clear heq
          split at h1
          next hreg => simp at h1
          next client hreg =>
            split at h1
            next e hout => simp at h1
            next out hout =>
              split at h1
              next e2 hcr => simp at h1
              next st2 assigned hcr =>
                simp only [CreateResult.mk.injEq, Except.ok.injEq, and_true] at h1
                obtain ⟨hp, hst⟩ := h1
                subst hp
                unfold repoCreate at hcr
                split at hcr <;> split at hcr <;> split at hcr <;> simp at hcr <;>
                  (obtain ⟨hst2, hassigned⟩ := hcr
                   subst hassigned
                   simp_all [armedForDelivery, markForCallbackDelivery])
      · rw [hfind] at h1
        simp only [CreateResult.mk.injEq, Except.ok.injEq] at h1
        exact absurd h1.2.2 (by decide)
  · intro st id reason now p st1 h
    rcases hfind : findByID st.payments id with _ | found
    · simp only [cancelPayment, hfind] at h
      simp at h
    · simp only [cancelPayment, hfind] at h
      by_cases hb : (found.status == statusPaid) = true
      · rw [if_pos hb] at h
        simp at h
      · rw [if_neg hb] at h
        split at h
        next e hup => simp at h
        next stx hup =>
          simp only [Prod.mk.injEq, Except.ok.injEq] at h
          obtain ⟨hq, hst⟩ := h
          rw [← hq]
          simp [armedForDelivery, markForCallbackDelivery]
  · intro reg st req now code client ev found h1 h2 h3 h4 hchanged hterm
    constructor
    · rw [handle_found_eq reg st req now code client ev found h1 h2 h3 h4]
    · exact applyCallbackEvent_armed_of_changed found ev now hchanged hterm
  · intro reg st payment now pid client v hpid hblank hreg hget hv0 hvs hterm huniq hf
    have hmem := mem_of_find?_key hf
    have hany : st.payments.any (fun r =>
        r.id == (reconciledPayment payment v now).id) = true :=
      any_id_of_mem hmem (reconciledPayment_id payment v now).symm
    have hrec := reconcileOne_update_eq reg st payment now pid client v hpid hblank hreg hget
      hv0 hvs hany
    constructor
    · rw [hrec]
      have hkey : ((fun r => r.id == payment.id) (reconciledPayment payment v now)) = true := by
        simp [reconciledPayment_id]
      exact find?_map_replace (fun r => r.id == payment.id) st.payments payment _ hf
        (reconciledPayment_id payment v now) hkey huniq
    · exact reconciledPayment_armed payment v now hterm
  · intro st payment now hne huniq hf
    have hmem := mem_of_find?_key hf
    have hany : st.payments.any (fun r => r.id == (expiredPayment payment now).id) = true :=
      any_id_of_mem hmem (expiredPayment_id payment now).symm
    have hexp := expireOne_update_eq st payment now hne hany
    refine ⟨?_, expiredPayment_status payment now, expiredPayment_armed payment now⟩
    rw [hexp]
    have hkey : ((fun r => r.id == payment.id) (expiredPayment payment now)) = true := by
      simp [expiredPayment_id]
    exact find?_map_replace (fun r => r.id == payment.id) st.payments payment _ hf
      (expiredPayment_id payment now) hkey huniq

def stubPaidInit : ProviderImpl :=
  { stubPaid with createPayment := fun _ => .ok { stubOut with initialStatus := statusPaid } }

def c4Created : Payment :=
  (createPayment [stubPaidInit] stEmpty reqCreate hash9 50).outcome.toOption.iget

def c4Canceled : Payment := (cancelPayment stPending 1 reasonDup 100).1.toOption.iget

/-- C4 witness: each of the five terminal transitions at a concrete input
leaves the written payment armed for delivery. -/
theorem C4_terminal_armament_witness :
    armedForDelivery c4Created 50 = true ∧
    armedForDelivery c4Canceled 100 = true ∧
    ((handleProviderCallback [stubPaid] stPending reqCb 100).outcome =
        .ok (applyCallbackEvent paymentPending evPaid 100) ∧
      armedForDelivery (applyCallbackEvent paymentPending evPaid 100) 100 = true) ∧
    (findByID (reconcileOne [stubPaid] stPending paymentPending 100).1.payments
        paymentPending.id = some (reconciledPayment paymentPending statusPaid 100) ∧
      armedForDelivery (reconciledPayment paymentPending statusPaid 100) 100 = true) ∧
    (findByID (expireOne stPending paymentPending 100).1.payments paymentPending.id =
        some (expiredPayment paymentPending 100) ∧
      (expiredPayment paymentPending 100).status = statusExpired ∧
      armedForDelivery (expiredPayment paymentPending 100) 100 = true) :=
  ⟨C4_terminal_armament.1 [stubPaidInit] stEmpty reqCreate hash9 50 c4Created
      ((createPayment [stubPaidInit] stEmpty reqCreate hash9 50).st) (by decide) (by decide),
   C4_terminal_armament.2.1 stPending 1 reasonDup 100 c4Canceled
      ((cancelPayment stPending 1 reasonDup 100).2) (by decide),
   C4_terminal_armament.2.2.1 [stubPaid] stPending reqCb 100 providerTypeStripe stubPaid
      evPaid paymentPending (by decide) rfl rfl (by decide) (by decide) (by decide),
   C4_terminal_armament.2.2.2.1 [stubPaid] stPending paymentPending 100 pidCs1 stubPaid
      statusPaid (by decide) (by decide) rfl rfl (by decide) (by decide) (by decide)
      (by decide) (by decide),
   C4_terminal_armament.2.2.2.2 stPending paymentPending 100 (by decide) (by decide)
      (by decide)⟩

/-- With unique ids, the id-keyed lookup of a member returns that member. -/
theorem find?_id_of_mem_unique (l : List Payment) (p0 : Payment)
    (hmem : p0 ∈ l) (huniq : uniqueIDs l) :
    l.find? (fun r => r.id == p0.id) = some p0 := by
  induction l with
  | nil => simp at hmem
  | cons h t ih =>
    rcases List.pairwise_cons.mp huniq with ⟨hh, ht⟩
    rcases List.mem_cons.mp hmem with hh0 | hmem'
    · subst hh0
      exact List.find?_cons_of_pos _ (by simp)
    · have hne : h.id ≠ p0.id := hh p0 hmem'
      rw [List.find?_cons_of_neg _ (by simpa using hne)]
      exact ih hmem' ht

/-- C9 amended: replaying the same parsed event leaves the Payment unchanged
except for `updated_at`, which is bumped to the second handling time; the
already-applied status is not re-applied and the delivery sub-state is not
re-armed (the stored value is literally the first result with only
updated_at replaced), while a second PROCESSED PaymentCallback row is still
written. -/
theorem C9_replay_bumps_only_updatedAt (reg : List ProviderImpl) (st : St)
    (req : HandleProviderCallbackRequest) (now1 now2 : Int) (code : Int)
    (client : ProviderImpl) (ev : CallbackEvent) (found : Payment)
    (huniq : uniqueIDs st.payments)
    (h1 : parseProviderCode req.provider = some code)
    (h2 : registryGet reg code = some client)
    (h3 : client.verifyAndParseCallback req.payload (trimSpace req.signature) = .ok (some ev))
    (h4 : findByCallbackHash st.payments code (trimSpace req.callbackHash) = some found) :
    (handleProviderCallback reg st req now1).outcome =
      .ok (applyCallbackEvent found ev now1) ∧
    (handleProviderCallback reg (handleProviderCallback reg st req now1).st req now2).outcome =
      .ok { applyCallbackEvent found ev now1 with updatedAt := now2 } ∧
    (handleProviderCallback reg (handleProviderCallback reg st req now1).st req
        now2).st.callbacks.length =
      (handleProviderCallback reg st req now1).st.callbacks.length + 1 ∧
    (((handleProviderCallback reg (handleProviderCallback reg st req now1).st req
        now2).st.callbacks.getLast?).map (fun c => c.status)) =
      some paymentCallbackStatusProcessed ∧
    findByID (handleProviderCallback reg (handleProviderCallback reg st req now1).st req
        now2).st.payments found.id =
      some { applyCallbackEvent found ev now1 with updatedAt := now2 } := by
  have hfst := handle_found_eq reg st req now1 code client ev found h1 h2 h3 h4
  have hmem := mem_of_find?_key h4
  have h4f : List.find? (fun r => r.provider == code &&
      r.providerCallbackHash == trimSpace req.callbackHash) st.payments = some found := h4
  have hfkey : (fun r => r.provider == code &&
      r.providerCallbackHash == trimSpace req.callbackHash) found = true := by
    have hx := List.find?_some h4f
    simpa using hx
  have hkey1 : (fun r => r.provider == code &&
      r.providerCallbackHash == trimSpace req.callbackHash)
        (applyCallbackEvent found ev now1) = true := by
    simp only [applyCallbackEvent_provider, applyCallbackEvent_hash]
    simpa using hfkey
  have h4' : findByCallbackHash (handleProviderCallback reg st req now1).st.payments code
      (trimSpace req.callbackHash) = some (applyCallbackEvent found ev now1) := by
    rw [hfst]
    exact find?_map_replace _ st.payments found _ h4 (applyCallbackEvent_id found ev now1)
      hkey1 huniq
  have hsnd := handle_found_eq reg (handleProviderCallback reg st req now1).st req now2 code
    client ev (applyCallbackEvent found ev now1) h1 h2 h3 h4'
  have hfid : st.payments.find? (fun r => r.id == found.id) = some found :=
    find?_id_of_mem_unique st.payments found hmem huniq
  have hfid1 : (handleProviderCallback reg st req now1).st.payments.find?
      (fun r => r.id == found.id) = some (applyCallbackEvent found ev now1) := by
    rw [hfst]
    exact find?_map_replace _ st.payments found _ hfid (applyCallbackEvent_id found ev now1)
      (by simp [applyCallbackEvent_id]) huniq
  have huniq1 : uniqueIDs (handleProviderCallback reg st req now1).st.payments := by
    rw [hfst]
    exact uniqueIDs_map_replace st.payments _ huniq
  refine ⟨?_, ?_, ?_, ?_, ?_⟩
  · rw [hfst]
  · rw [hsnd, applyCallbackEvent_replay]
  · rw [hsnd]
    simp [addCallback, addEvent]
  · rw [hsnd]
    simp [addCallback, addEvent]
  · rw [hsnd, ← applyCallbackEvent_replay found ev now1 now2]
    exact find?_map_replace (fun r => r.id == found.id)
      (handleProviderCallback reg st req now1).st.payments (applyCallbackEvent found ev now1)
      (applyCallbackEvent (applyCallbackEvent found ev now1) ev now2) hfid1
      (applyCallbackEvent_id (applyCallbackEvent found ev now1) ev now2)
      (by simp [applyCallbackEvent_id]) huniq1

theorem C9_replay_bumps_only_updatedAt_witness :
    (handleProviderCallback [stubPaid] stPending reqCb 100).outcome =
      .ok (applyCallbackEvent paymentPending evPaid 100) ∧
    (handleProviderCallback [stubPaid] (handleProviderCallback [stubPaid] stPending reqCb 100).st
        reqCb 200).outcome =
      .ok { applyCallbackEvent paymentPending evPaid 100 with updatedAt := 200 } ∧
    (handleProviderCallback [stubPaid] (handleProviderCallback [stubPaid] stPending reqCb 100).st
        reqCb 200).st.callbacks.length =
      (handleProviderCallback [stubPaid] stPending reqCb 100).st.callbacks.length + 1 ∧
    (((handleProviderCallback [stubPaid] (handleProviderCallback [stubPaid] stPending reqCb 100).st
        reqCb 200).st.callbacks.getLast?).map (fun c => c.status)) =
      some paymentCallbackStatusProcessed ∧
    findByID (handleProviderCallback [stubPaid] (handleProviderCallback [stubPaid] stPending
        reqCb 100).st reqCb 200).st.payments paymentPending.id =
      some { applyCallbackEvent paymentPending evPaid 100 with updatedAt := 200 } :=
  C9_replay_bumps_only_updatedAt [stubPaid] stPending reqCb 100 200 providerTypeStripe
    stubPaid evPaid paymentPending (by decide) (by decide) rfl rfl (by decide)

end Payments
